import Mathlib

/-!
# zkbnb-crypto: unlock proof circuit, witness builder and transaction segments

A shallow embedding of

* `zecrey/circuit/bn254/std/unlock.go`  (`VerifyUnlockProof`, `SetUnlockProofWitness`,
  `SetEmptyUnlockProofWitness`),
* `wasm/zecrey-legend/setNftPriceTypes.go` (`ConstructSetNftPriceTxInfo`,
  `ComputeSetNftPriceMsgHash`),
* `wasm/zecrey-zero/src/transferNftTypes.go` (`FromTransferNftSegmentJSON`).

The curve group is a type `P` with `[AddCommGroup P]`; a scalar is the natural number
held by a circuit variable and scalar multiplication is `n • p`.  The hash
primitives, the native verifier, the witness setters, the JSON decoder and the
signer live outside these files and are taken as arguments.
-/

namespace Zecrey

/-! ## Circuit side: `std/unlock.go` -/

/-- ElGamalEncConstraints: the two points of a twisted ElGamal ciphertext. -/
structure ElGamalEncConstraints (P : Type) where
  CL : P
  CR : P
deriving DecidableEq, Repr

/-- UnlockProofConstraints (unlock.go 30-49), over a point type `P` and a variable
type `V`.  For constraint evaluation `P` is the curve group and `V = Nat` (the value
carried by a wire); for a witness `V` is an assignable variable. -/
structure UnlockProofConstraints (P V : Type) where
  A_pk : P
  Z_sk : V
  Z_skInv : V
  Pk : P
  ChainId : V
  AssetId : V
  Balance : V
  DeltaAmount : V
  A_T_feeC_feeRPrimeInv : P
  Z_bar_r_fee : V
  C_fee : ElGamalEncConstraints P
  T_fee : P
  GasFeeAssetId : V
  GasFee : V
  IsEnabled : V
deriving DecidableEq, Repr

/-- The part of `twistededwards.EdCurve` the verifier reads: the base point
`(BaseX, BaseY)`, and the two coordinates under which a point enters the hash. -/
structure EdCurve (P : Type) where
  Base : P
  X : P → Nat
  Y : P → Nat

/-- In-circuit MiMC (`std/hash/mimc`): the values written so far, and the digest
function applied to them by `Sum`. -/
structure MiMC where
  digest : List Nat → Nat
  data : List Nat

/-- Method `hFunc.Write(v...)`: appends the values to the buffer. -/
def MiMC.Write (hFunc : MiMC) (vs : List Nat) : MiMC :=
  { hFunc with data := hFunc.data ++ vs }

/-- Method `hFunc.Sum()`: hashes the buffered values. -/
def MiMC.Sum (hFunc : MiMC) : Nat :=
  hFunc.digest hFunc.data

/-- Constructor `mimc.NewMiMC(seed, curveID, api)`: a hasher with an empty buffer. -/
def NewMiMC (digest : List Nat → Nat) : MiMC :=
  { digest := digest, data := [] }

/-- Modelled from the spec: `writePointIntoBuf` (a helper of package std that is not
in the sources at hand); spec 4.2: "Write(value) appends a scalar or point's
canonical fixed-width encoding", here the two coordinates of the point. -/
def writePointIntoBuf {P : Type} (params : EdCurve P) (hFunc : MiMC) (p : P) : MiMC :=
  hFunc.Write [params.X p, params.Y p]

/-- Modelled from the spec: `writeEncIntoBuf` (a helper of package std that is not in
the sources at hand); spec 4.2: "fee ciphertext C_fee (both components)",
written as CL then CR. -/
def writeEncIntoBuf {P : Type} (params : EdCurve P) (hFunc : MiMC)
    (enc : ElGamalEncConstraints P) : MiMC :=
  writePointIntoBuf params (writePointIntoBuf params hFunc enc.CL) enc.CR

/-- Lines 79-92 of `VerifyUnlockProof`: the writes into `hFunc` and the final `Sum`,
giving the challenge `c`.  `FixedCurveParam` is the constant `FixedCurveParam(api)`. -/
def unlockChallenge {P : Type} (FixedCurveParam : Nat) (proof : UnlockProofConstraints P Nat)
    (params : EdCurve P) (hFunc : MiMC) : Nat :=
  let hFunc := hFunc.Write [FixedCurveParam]
  let hFunc := writePointIntoBuf params hFunc proof.Pk
  let hFunc := writePointIntoBuf params hFunc proof.A_pk
  let hFunc := hFunc.Write [proof.ChainId]
  let hFunc := hFunc.Write [proof.AssetId]
  let hFunc := hFunc.Write [proof.Balance]
  let hFunc := hFunc.Write [proof.DeltaAmount]
  -- gas fee
  let hFunc := writePointIntoBuf params hFunc proof.A_T_feeC_feeRPrimeInv
  let hFunc := writeEncIntoBuf params hFunc proof.C_fee
  let hFunc := hFunc.Write [proof.GasFeeAssetId]
  let hFunc := hFunc.Write [proof.GasFee]
  hFunc.Sum

section GroupPrimitives

variable {P : Type} [AddCommGroup P]

/-- Method `Point.Neg` of gnark twistededwards: the group inverse (spec 2: the field and
group primitives are external and assumed correct). -/
def Neg (p : P) : P := -p

/-- Method `Point.AddGeneric`: the group law. -/
def AddGeneric (p1 p2 : P) : P := p1 + p2

/-- Method `Point.ScalarMulNonFixedBase`: the point times the integer held by the scalar
variable. -/
def ScalarMulNonFixedBase (p1 : P) (scalar : Nat) : P := scalar • p1

/-- Method `Point.ScalarMulFixedBase(x, y, scalar)`: the fixed point `(x, y)` times the
scalar. -/
def ScalarMulFixedBase (base : P) (scalar : Nat) : P := scalar • base

/-- Method `tool.AddPoint` of `EccTool`: the group law. -/
def AddPoint (a b : P) : P := a + b

/-- Method `tool.ScalarMul` of `EccTool`: the point times the scalar. -/
def ScalarMul (p : P) (s : Nat) : P := s • p

/-- Method `tool.ScalarBaseMul` of `EccTool`: the base point of the curve times the
scalar. -/
def ScalarBaseMul (params : EdCurve P) (s : Nat) : P := s • params.Base

/-- Modelled from the spec: `IsPointEqual` (a helper of package std that is not in the
sources at hand); spec 4.3 step 4: the equality constraint holds iff the two
points are equal OR `IsEnabled` is false.  The flag is a boolean wire, false being 0. -/
def IsPointEqual [DecidableEq P] (isEnabled : Nat) (a b : P) : Bool :=
  decide (a = b) || decide (isEnabled = 0)

/-- Left and right side of the first asserted equality (lines 93-97). -/
def unlockEq1 (proof : UnlockProofConstraints P Nat) (params : EdCurve P) (c : Nat) :
    P × P :=
  let l := ScalarMulFixedBase params.Base proof.Z_sk
  let r := ScalarMulNonFixedBase proof.Pk c
  let r := AddGeneric r proof.A_pk
  (l, r)

/-- Left and right side of the second asserted equality (lines 99-113). -/
def unlockEq2 (proof : UnlockProofConstraints P Nat) (params : EdCurve P) (h : P)
    (c : Nat) : P × P :=
  let hNeg := Neg h
  let C_feeDelta := ScalarMul hNeg proof.GasFee
  -- the statement `C_feeLprimeInv.Neg(api, &proof.C_fee.CL)` occurs twice (105, 106);
  -- each one stores the negation of `C_fee.CL`, so the second repeats the first
  let _C_feeLprimeInv := Neg proof.C_fee.CL
  let C_feeLprimeInv := Neg proof.C_fee.CL
  let C_feePrimeInv := AddPoint proof.C_fee.CR C_feeDelta
  let C_feePrimeInv := Neg C_feePrimeInv
  let T_feeDivC_feeRprime := AddPoint proof.T_fee C_feePrimeInv
  let l2 := AddPoint (ScalarBaseMul params proof.Z_bar_r_fee)
    (ScalarMul C_feeLprimeInv proof.Z_skInv)
  let r2 := AddPoint proof.A_T_feeC_feeRPrimeInv (ScalarMul T_feeDivC_feeRprime c)
  (l2, r2)

/-- Function `VerifyUnlockProof` (unlock.go 72-114).  The Go function returns nothing and adds
constraints through `IsPointEqual`; the result here is whether every constraint it adds
is satisfied by the values in `proof`. -/
def VerifyUnlockProof [DecidableEq P] (FixedCurveParam : Nat)
    (proof : UnlockProofConstraints P Nat) (params : EdCurve P) (hFunc : MiMC) (h : P) :
    Bool :=
  let c := unlockChallenge FixedCurveParam proof params hFunc
  let e1 := unlockEq1 proof params c
  let e2 := unlockEq2 proof params h c
  IsPointEqual proof.IsEnabled e1.1 e1.2 && IsPointEqual proof.IsEnabled e2.1 e2.2

end GroupPrimitives

/-! ## Witness side: `SetUnlockProofWitness` -/

/-- Go `error` values; a nil error is `none`. -/
abbrev Error := String

/-- A frontend variable of a witness: `WitnessValue` is nil until `Assign` stores a
value in it. -/
structure Variable where
  WitnessValue : Option Nat
deriving DecidableEq, Repr

/-- Method `v.Assign(x)`: stores the value. -/
def Variable.Assign (_v : Variable) (x : Nat) : Variable :=
  { WitnessValue := some x }

/-- The zero value of `Variable`: nothing assigned. -/
def Variable.zero : Variable := { WitnessValue := none }

/-- A witness `Point`: two variables. -/
structure Point where
  X : Variable
  Y : Variable
deriving DecidableEq, Repr

/-- The zero value of `Point`. -/
def Point.zero : Point := { X := Variable.zero, Y := Variable.zero }

/-- The zero value of `UnlockProofConstraints`, which the named result `witness` holds
on entry to `SetUnlockProofWitness`: no field assigned. -/
def zeroWitness : UnlockProofConstraints Point Variable :=
  { A_pk := Point.zero, Z_sk := Variable.zero, Z_skInv := Variable.zero, Pk := Point.zero,
    ChainId := Variable.zero, AssetId := Variable.zero, Balance := Variable.zero,
    DeltaAmount := Variable.zero, A_T_feeC_feeRPrimeInv := Point.zero,
    Z_bar_r_fee := Variable.zero, C_fee := { CL := Point.zero, CR := Point.zero },
    T_fee := Point.zero, GasFeeAssetId := Variable.zero, GasFee := Variable.zero,
    IsEnabled := Variable.zero }

/-- Modelled from the spec: the native proof type `zecrey.UnlockProof`, whose
declaration is not in the sources at hand; the fields are those of spec 3 that
`SetUnlockProofWitness` reads.  `NP` is the native `*Point`, `NE` the native
`*ElGamalEnc`; scalars and amounts are the integers they hold. -/
structure UnlockProof (NP NE : Type) where
  A_pk : NP
  Z_sk : Nat
  Z_skInv : Nat
  Pk : NP
  ChainId : Nat
  AssetId : Nat
  Balance : Nat
  DeltaAmount : Nat
  A_T_feeC_feeRPrimeInv : NP
  Z_bar_r_fee : Nat
  C_fee : NE
  T_fee : NP
  GasFeeAssetId : Nat
  GasFee : Nat

/-- The functions `SetUnlockProofWitness` calls that are defined outside unlock.go:
the native check `proof.Verify()` and the three witness setters.  A Go pair
`(value, err)` is a pair whose second component is `none` for a nil error. -/
structure WitnessEnv (NP NE : Type) where
  Verify : UnlockProof NP NE → Bool × Option Error
  SetPointWitness : NP → Point × Option Error
  SetElGamalEncWitness : NE → ElGamalEncConstraints Point × Option Error
  SetBoolWitness : Bool → Variable

/-- Go conversion `uint64(x)` of an unsigned integer. -/
def toUint64 (x : Nat) : Nat := x % 2 ^ 64

/-- Function `SetUnlockProofWitness` (unlock.go 138-188).  `proof` is a pointer: `none` is nil.
The result is the Go pair `(witness, err)`. -/
def SetUnlockProofWitness {NP NE : Type} (env : WitnessEnv NP NE)
    (proof : Option (UnlockProof NP NE)) (isEnabled : Bool) :
    UnlockProofConstraints Point Variable × Option Error :=
  -- named results start at their zero values
  let witness : UnlockProofConstraints Point Variable := zeroWitness
  let err : Option Error := none
  match proof with
  | none => (witness, err)
  | some proof =>
    -- proof must be correct
    let (verifyRes, err) := env.Verify proof
    if err.isSome then (witness, err) else
    if !verifyRes then (witness, some "[SetUnlockProofWitness] invalid proof") else
    let (v, err) := env.SetPointWitness proof.A_pk
    let witness := { witness with A_pk := v }
    if err.isSome then (witness, err) else
    let (v, err) := env.SetPointWitness proof.Pk
    let witness := { witness with Pk := v }
    if err.isSome then (witness, err) else
    -- response
    let witness := { witness with Z_sk := witness.Z_sk.Assign proof.Z_sk }
    let witness := { witness with Z_skInv := witness.Z_skInv.Assign proof.Z_skInv }
    let witness := { witness with ChainId := witness.ChainId.Assign (toUint64 proof.ChainId) }
    let witness := { witness with AssetId := witness.AssetId.Assign (toUint64 proof.AssetId) }
    let witness := { witness with Balance := witness.Balance.Assign proof.Balance }
    let witness := { witness with DeltaAmount := witness.DeltaAmount.Assign proof.DeltaAmount }
    -- gas fee
    let (v, err) := env.SetPointWitness proof.A_T_feeC_feeRPrimeInv
    let witness := { witness with A_T_feeC_feeRPrimeInv := v }
    if err.isSome then (witness, err) else
    let witness := { witness with Z_bar_r_fee := witness.Z_bar_r_fee.Assign proof.Z_bar_r_fee }
    let (enc, err) := env.SetElGamalEncWitness proof.C_fee
    let witness := { witness with C_fee := enc }
    if err.isSome then (witness, err) else
    let (v, err) := env.SetPointWitness proof.T_fee
    let witness := { witness with T_fee := v }
    if err.isSome then (witness, err) else
    let witness :=
      { witness with GasFeeAssetId := witness.GasFeeAssetId.Assign (toUint64 proof.GasFeeAssetId) }
    let witness := { witness with GasFee := witness.GasFee.Assign proof.GasFee }
    let witness := { witness with IsEnabled := env.SetBoolWitness isEnabled }
    (witness, none)

/-! ## Transaction side: `wasm/zecrey-legend/setNftPriceTypes.go` -/

/-- SetNftPriceSegmentFormat (28-37): eight `int64` fields, held as integers. -/
structure SetNftPriceSegmentFormat where
  AccountIndex : Int
  NftIndex : Int
  AssetId : Int
  AssetAmount : Int
  GasAccountIndex : Int
  GasFeeAssetId : Int
  GasFeeAssetAmount : Int
  Nonce : Int
deriving DecidableEq, Repr

/-- SetNftPriceTxInfo (75-85): five `uint32`, three `uint64` and the signature bytes
(a nil slice is the empty list). -/
structure SetNftPriceTxInfo where
  AccountIndex : Nat
  NftIndex : Nat
  AssetId : Nat
  AssetAmount : Nat
  GasAccountIndex : Nat
  GasFeeAssetId : Nat
  GasFeeAssetAmount : Nat
  Nonce : Nat
  Sig : List Nat
deriving DecidableEq, Repr

/-- Go conversion `uint32(x)` of an `int64`: the value modulo 2^32. -/
def uint32 (x : Int) : Nat := (x % 2 ^ 32).toNat

/-- Go conversion `uint64(x)` of an `int64`: the value modulo 2^64. -/
def uint64 (x : Int) : Nat := (x % 2 ^ 64).toNat

/-- A `hash.Hash` (here the byte-oriented MiMC of gnark-crypto): the bytes written
since the last `Reset`, and the digest function `Sum` applies to them. -/
structure Hash where
  digest : List Nat → List Nat
  data : List Nat

/-- Method `hFunc.Reset()`: drops the buffered bytes. -/
def Hash.Reset (hFunc : Hash) : Hash := { hFunc with data := [] }

/-- Method `hFunc.Write(p)`: appends the bytes. -/
def Hash.Write (hFunc : Hash) (p : List Nat) : Hash := { hFunc with data := hFunc.data ++ p }

/-- Method `hFunc.Sum(nil)`: the digest of the buffered bytes. -/
def Hash.Sum (hFunc : Hash) : List Nat := hFunc.digest hFunc.data

/-- The `n` low-order base-256 digits of `a`, most significant first. -/
def fillBytes : Nat → Nat → List Nat
  | 0, _ => []
  | n + 1, a => fillBytes n (a / 256) ++ [a % 256]

/-- Modelled from the spec: `writeUint64IntoBuf` (a helper of package zecrey_legend
that is not in the sources at hand); spec 4.5 step 2: each field is appended "as a
fixed-width big-endian-style chunk matching the hash primitive's natural input
width", 32 bytes for MiMC over the bn254 scalar field. -/
def writeUint64IntoBuf (buf : List Nat) (a : Nat) : List Nat :=
  buf ++ fillBytes 32 a

/-- The buffer `ComputeSetNftPriceMsgHash` builds (101-109). -/
def setNftPriceMsgBytes (txInfo : SetNftPriceTxInfo) : List Nat :=
  let buf : List Nat := []
  let buf := writeUint64IntoBuf buf (txInfo.AccountIndex % 2 ^ 64)
  let buf := writeUint64IntoBuf buf (txInfo.NftIndex % 2 ^ 64)
  let buf := writeUint64IntoBuf buf (txInfo.AssetId % 2 ^ 64)
  let buf := writeUint64IntoBuf buf (txInfo.AssetAmount % 2 ^ 64)
  let buf := writeUint64IntoBuf buf (txInfo.GasAccountIndex % 2 ^ 64)
  let buf := writeUint64IntoBuf buf (txInfo.GasFeeAssetId % 2 ^ 64)
  let buf := writeUint64IntoBuf buf (txInfo.GasFeeAssetAmount % 2 ^ 64)
  let buf := writeUint64IntoBuf buf (txInfo.Nonce % 2 ^ 64)
  buf

/-- Function `ComputeSetNftPriceMsgHash` (87-113): reset, one write of the buffer, sum. -/
def ComputeSetNftPriceMsgHash (txInfo : SetNftPriceTxInfo) (hFunc : Hash) : List Nat :=
  let hFunc := hFunc.Reset
  let hFunc := hFunc.Write (setNftPriceMsgBytes txInfo)
  hFunc.Sum

/-- What a call of a Go function ends in: a return, or the run-time abort raised by
reading a field through a nil pointer. -/
inductive Outcome (α : Type) where
  | nilDereference : Outcome α
  | returned : α → Outcome α
deriving DecidableEq, Repr

/-- The functions `ConstructSetNftPriceTxInfo` calls that are defined outside the file:
`json.Unmarshal` into a `*SetNftPriceSegmentFormat` (an error, or the pointer it
leaves, which is nil for the JSON text null), the digest of `mimc.NewMiMC()`, and
`sk.Sign(msgHash, hFunc)`. -/
structure TxEnv (SK : Type) where
  Unmarshal : String → Except Error (Option SetNftPriceSegmentFormat)
  digest : List Nat → List Nat
  Sign : SK → List Nat → Hash → Except Error (List Nat)

/-- Lines 49-59 of `ConstructSetNftPriceTxInfo`: the transaction built from the decoded
segment by the conversions `uint32(...)` and `uint64(...)`, with a nil signature. -/
def txInfoOfSegment (segmentFormat : SetNftPriceSegmentFormat) : SetNftPriceTxInfo :=
  { AccountIndex := uint32 segmentFormat.AccountIndex
    NftIndex := uint32 segmentFormat.NftIndex
    AssetId := uint32 segmentFormat.AssetId
    AssetAmount := uint64 segmentFormat.AssetAmount
    GasAccountIndex := uint32 segmentFormat.GasAccountIndex
    GasFeeAssetId := uint32 segmentFormat.GasFeeAssetId
    GasFeeAssetAmount := uint64 segmentFormat.GasFeeAssetAmount
    Nonce := uint64 segmentFormat.Nonce
    Sig := [] }

/-- Function `ConstructSetNftPriceTxInfo` (42-73).  The result is the Go pair `(txInfo, err)`,
`none` standing for nil. -/
def ConstructSetNftPriceTxInfo {SK : Type} (env : TxEnv SK) (sk : SK) (segmentStr : String) :
    Outcome (Option SetNftPriceTxInfo × Option Error) :=
  match env.Unmarshal segmentStr with
  | .error err => .returned (none, some err)
  | .ok none => .nilDereference
  | .ok (some segmentFormat) =>
    let txInfo := txInfoOfSegment segmentFormat
    -- compute call data hash
    let hFunc : Hash := { digest := env.digest, data := [] }
    -- compute msg hash
    let msgHash := ComputeSetNftPriceMsgHash txInfo hFunc
    -- compute signature
    let hFunc := hFunc.Reset
    match env.Sign sk msgHash hFunc with
    | .error err => .returned (none, some err)
    | .ok sigBytes => .returned (some { txInfo with Sig := sigBytes }, none)

/-! ## A small instance on which the statements below are evaluated -/

/-- A cyclic group of order 26 = 2 * 13 standing for the curve group (cofactor 2); the
base point 2 generates the subgroup of prime order 13. -/
def demoCurve : EdCurve (ZMod 26) :=
  { Base := 2, X := fun p => p.val, Y := fun p => (p.val * p.val + 3) % 26 }

/-- A small stand-in for the MiMC digest. -/
def demoDigest (xs : List Nat) : Nat :=
  xs.foldl (fun acc x => (acc * 31 + x) % 127) 7

/-- An honestly formed enabled proof over `demoCurve` with auxiliary generator 10:
`sk = 3`, `a = 5`, `rbar = 2`, `s = 4`, `alpha_r = 6`, `alpha_s = 1`; its challenge
is 5. -/
def demoProof : UnlockProofConstraints (ZMod 26) Nat :=
  { A_pk := 10, Z_sk := 7, Z_skInv := 8, Pk := 6, ChainId := 7, AssetId := 2, Balance := 100,
    DeltaAmount := 10, A_T_feeC_feeRPrimeInv := 0, Z_bar_r_fee := 3,
    C_fee := { CL := 12, CR := 18 }, T_fee := 6, GasFeeAssetId := 1, GasFee := 2,
    IsEnabled := 1 }

/-- A disabled slot filled with values that satisfy neither equation. -/
def demoPadding : UnlockProofConstraints (ZMod 26) Nat :=
  { A_pk := 1, Z_sk := 1, Z_skInv := 1, Pk := 1, ChainId := 0, AssetId := 0, Balance := 0,
    DeltaAmount := 0, A_T_feeC_feeRPrimeInv := 1, Z_bar_r_fee := 3,
    C_fee := { CL := 1, CR := 1 }, T_fee := 1, GasFeeAssetId := 0, GasFee := 0,
    IsEnabled := 0 }

/-- The same honest prover on chain 21, where the challenge is 4, an even number. -/
def demoProofEvenChallenge : UnlockProofConstraints (ZMod 26) Nat :=
  { A_pk := 10, Z_sk := 4, Z_skInv := 4, Pk := 6, ChainId := 21, AssetId := 2, Balance := 100,
    DeltaAmount := 10, A_T_feeC_feeRPrimeInv := 0, Z_bar_r_fee := 1,
    C_fee := { CL := 12, CR := 18 }, T_fee := 6, GasFeeAssetId := 1, GasFee := 2,
    IsEnabled := 1 }

/-- Native points of the demo environment: a pointer to a coordinate pair. -/
abbrev DemoPoint := Option (Nat × Nat)

/-- Native ciphertexts of the demo environment: a pointer to two coordinate pairs. -/
abbrev DemoEnc := Option ((Nat × Nat) × (Nat × Nat))

/-- A witness point with both coordinates assigned. -/
def assignedPoint (c : Nat × Nat) : Point :=
  { X := Variable.zero.Assign c.1, Y := Variable.zero.Assign c.2 }

/-- A demo environment: the native check accepts the response 7 under a non-nil public
key, and the setters refuse a nil pointer. -/
def demoWitnessEnv : WitnessEnv DemoPoint DemoEnc :=
  { Verify := fun proof =>
      match proof.Pk with
      | none => (false, some "nil public key")
      | some _ => (decide (proof.Z_sk = 7), none)
    SetPointWitness := fun p =>
      match p with
      | none => (Point.zero, some "nil point")
      | some c => (assignedPoint c, none)
    SetElGamalEncWitness := fun e =>
      match e with
      | none => ({ CL := Point.zero, CR := Point.zero }, some "nil encryption")
      | some (l, r) => ({ CL := assignedPoint l, CR := assignedPoint r }, none)
    SetBoolWitness := fun b => Variable.zero.Assign (if b then 1 else 0) }

/-- A native proof the demo environment accepts. -/
def demoNativeProof : UnlockProof DemoPoint DemoEnc :=
  { A_pk := some (10, 25), Z_sk := 7, Z_skInv := 8, Pk := some (6, 13), ChainId := 7,
    AssetId := 2, Balance := 100, DeltaAmount := 10, A_T_feeC_feeRPrimeInv := some (0, 3),
    Z_bar_r_fee := 3, C_fee := some ((12, 17), (18, 15)), T_fee := some (6, 13),
    GasFeeAssetId := 1, GasFee := 2 }

/-- The segment of spec 8 with `account_index` set to -1. -/
def demoNegativeSegment : SetNftPriceSegmentFormat :=
  { AccountIndex := -1, NftIndex := 2, AssetId := 3, AssetAmount := 100, GasAccountIndex := 0,
    GasFeeAssetId := 0, GasFeeAssetAmount := 1, Nonce := 5 }

/-- The JSON text of `demoNegativeSegment`. -/
def demoNegativeSegmentStr : String :=
  "\x7b\"account_index\":-1,\"nft_index\":2,\"asset_id\":3,\"asset_amount\":100," ++
  "\"gas_account_index\":0,\"gas_fee_asset_id\":0,\"gas_fee_asset_amount\":1,\"nonce\":5\x7d"

/-- A demo environment: the decoder knows the text of `demoNegativeSegment` and the
text null, the digest is a one-byte checksum, and the signer with key `sk` succeeds
unless the key is 0. -/
def demoTxEnv : TxEnv Nat :=
  { Unmarshal := fun s =>
      if s = demoNegativeSegmentStr then .ok (some demoNegativeSegment)
      else if s = "null" then .ok none
      else .error "invalid character"
    digest := fun bs => [bs.foldl (fun acc b => (acc * 31 + b) % 251) 7]
    Sign := fun sk msgHash _ =>
      if sk = 0 then .error "invalid key" else .ok (msgHash.map (fun b => (b + sk) % 256)) }

/-! ## Padding witness: `SetEmptyUnlockProofWitness` -/

/-- Function `SetEmptyUnlockProofWitness` (unlock.go 116-135).  The package constants
`BasePoint`, `ZeroInt` and `ZeroElgamalEnc` are declared outside unlock.go and are
taken as arguments; the errors of the setters are dropped, as in the source. -/
def SetEmptyUnlockProofWitness {NP NE : Type} (env : WitnessEnv NP NE) (BasePoint : NP)
    (ZeroInt : Nat) (ZeroElgamalEnc : NE) : UnlockProofConstraints Point Variable :=
  let witness : UnlockProofConstraints Point Variable := zeroWitness
  let witness := { witness with A_pk := (env.SetPointWitness BasePoint).1 }
  let witness := { witness with Pk := (env.SetPointWitness BasePoint).1 }
  -- response
  let witness := { witness with Z_sk := witness.Z_sk.Assign ZeroInt }
  let witness := { witness with Z_skInv := witness.Z_skInv.Assign ZeroInt }
  let witness := { witness with ChainId := witness.ChainId.Assign ZeroInt }
  let witness := { witness with AssetId := witness.AssetId.Assign ZeroInt }
  let witness := { witness with Balance := witness.Balance.Assign ZeroInt }
  let witness := { witness with DeltaAmount := witness.DeltaAmount.Assign ZeroInt }
  -- gas fee
  let witness :=
    { witness with A_T_feeC_feeRPrimeInv := (env.SetPointWitness BasePoint).1 }
  let witness := { witness with Z_bar_r_fee := witness.Z_bar_r_fee.Assign ZeroInt }
  let witness := { witness with C_fee := (env.SetElGamalEncWitness ZeroElgamalEnc).1 }
  let witness := { witness with T_fee := (env.SetPointWitness BasePoint).1 }
  let witness := { witness with GasFeeAssetId := witness.GasFeeAssetId.Assign ZeroInt }
  let witness := { witness with GasFee := witness.GasFee.Assign ZeroInt }
  let witness := { witness with IsEnabled := env.SetBoolWitness false }
  witness

/-- Whether the witness point carries the two coordinates of the curve point `p`. -/
def Point.holds {P : Type} (params : EdCurve P) (w : Point) (p : P) : Bool :=
  decide (w.X.WitnessValue = some (params.X p)) && decide (w.Y.WitnessValue = some (params.Y p))

/-- Whether the witness variable carries the value `x`. -/
def Variable.holds (w : Variable) (x : Nat) : Bool :=
  decide (w.WitnessValue = some x)

/-- Whether `values` is what the constraint system reads from the assigned witness `w`:
every variable of `w` is assigned, scalars to the scalar of `values`, points to the
coordinates of the point of `values`. -/
def assigns {P : Type} (params : EdCurve P) (w : UnlockProofConstraints Point Variable)
    (values : UnlockProofConstraints P Nat) : Bool :=
  w.A_pk.holds params values.A_pk && w.Z_sk.holds values.Z_sk &&
  w.Z_skInv.holds values.Z_skInv && w.Pk.holds params values.Pk &&
  w.ChainId.holds values.ChainId && w.AssetId.holds values.AssetId &&
  w.Balance.holds values.Balance && w.DeltaAmount.holds values.DeltaAmount &&
  w.A_T_feeC_feeRPrimeInv.holds params values.A_T_feeC_feeRPrimeInv &&
  w.Z_bar_r_fee.holds values.Z_bar_r_fee &&
  w.C_fee.CL.holds params values.C_fee.CL && w.C_fee.CR.holds params values.C_fee.CR &&
  w.T_fee.holds params values.T_fee && w.GasFeeAssetId.holds values.GasFeeAssetId &&
  w.GasFee.holds values.GasFee && w.IsEnabled.holds values.IsEnabled

/-- The values of the padding slot: every scalar 0, every point the base point, `C_fee`
the pair of identity points, the flag 0. -/
def emptyUnlockValues {P : Type} [AddCommGroup P] (params : EdCurve P) :
    UnlockProofConstraints P Nat :=
  { A_pk := params.Base, Z_sk := 0, Z_skInv := 0, Pk := params.Base, ChainId := 0,
    AssetId := 0, Balance := 0, DeltaAmount := 0, A_T_feeC_feeRPrimeInv := params.Base,
    Z_bar_r_fee := 0, C_fee := { CL := 0, CR := 0 }, T_fee := params.Base,
    GasFeeAssetId := 0, GasFee := 0, IsEnabled := 0 }

/-! ## Integer types of the decoded segments -/

/-- Whether an integer is a value of Go's `int64` (and of `int` on a 64-bit target). -/
def isInt64 (x : Int) : Bool :=
  decide (-(2 : Int) ^ 63 ≤ x) && decide (x < (2 : Int) ^ 63)

/-- Whether the eight fields of a decoded set-nft-price segment are `int64` values, as
the field types of `SetNftPriceSegmentFormat` (28-37) require. -/
def SetNftPriceSegmentFormat.wellTyped (seg : SetNftPriceSegmentFormat) : Bool :=
  isInt64 seg.AccountIndex && isInt64 seg.NftIndex && isInt64 seg.AssetId &&
  isInt64 seg.AssetAmount && isInt64 seg.GasAccountIndex && isInt64 seg.GasFeeAssetId &&
  isInt64 seg.GasFeeAssetAmount && isInt64 seg.Nonce

/-- Whether the eight numeric fields of a transaction are values of their declared
types (75-85): `uint32` for indices and asset ids, `uint64` for amounts and the nonce. -/
def SetNftPriceTxInfo.wellTyped (txInfo : SetNftPriceTxInfo) : Bool :=
  decide (txInfo.AccountIndex < 2 ^ 32) && decide (txInfo.NftIndex < 2 ^ 32) &&
  decide (txInfo.AssetId < 2 ^ 32) && decide (txInfo.AssetAmount < 2 ^ 64) &&
  decide (txInfo.GasAccountIndex < 2 ^ 32) && decide (txInfo.GasFeeAssetId < 2 ^ 32) &&
  decide (txInfo.GasFeeAssetAmount < 2 ^ 64) && decide (txInfo.Nonce < 2 ^ 64)

/-- What `json.Unmarshal` does with the numbers of a JSON object once the text is
parsed: they are stored in the `int64` fields, and a number that overflows the field
type makes the call return an error. -/
def storeSetNftPriceSegment (numbers : SetNftPriceSegmentFormat) :
    Except Error (Option SetNftPriceSegmentFormat) :=
  if numbers.wellTyped then .ok (some numbers)
  else .error "json: cannot unmarshal number into Go struct field of type int64"

/-! ## Transfer-nft segment: `wasm/zecrey-zero/src/transferNftTypes.go` -/

/-- TransferNftSegmentFormat (49-68): the decoded JSON record; `int` and `int64` fields
are held as integers. -/
structure TransferNftSegmentFormat where
  AccountIndex : Int
  Pk : String
  Sk : String
  NftIndex : Int
  ReceiverAccountIndex : Int
  C_fee : String
  B_fee : Int
  GasFeeAssetId : Int
  GasFee : Int
deriving DecidableEq, Repr

/-- TransferNftSegment (32-44), over the types of a parsed point and a parsed
ciphertext; `Sk` is the parsed big integer. -/
structure TransferNftSegment (PT ENC : Type) where
  AccountIndex : Nat
  Pk : PT
  Sk : Int
  NftIndex : Nat
  ReceiverAccountIndex : Nat
  C_fee : ENC
  B_fee : Nat
  GasFeeAssetId : Nat
  GasFee : Nat
deriving DecidableEq, Repr

/-- What `FromTransferNftSegmentJSON` uses from outside the file: `json.Unmarshal` into a
`*TransferNftSegmentFormat` (nil pointer for the JSON text null), the parsers
`curve.FromString`, `new(big.Int).SetString(s, 10)` and `twistedElgamal.FromString`, and
the status strings of the package. -/
structure TransferEnv (PT ENC : Type) where
  Unmarshal : String → Except Error (Option TransferNftSegmentFormat)
  FromString : String → Except Error PT
  SetString : String → Option Int
  EncFromString : String → Except Error ENC
  Success : String
  ErrUnmarshal : String
  ErrParsePoint : String
  ErrParseBigInt : String
  ErrParseEnc : String

/-- Function `FromTransferNftSegmentJSON` (70-113).  The result is the Go pair
`(segment, status)`, `none` standing for a nil segment. -/
def FromTransferNftSegmentJSON {PT ENC : Type} (env : TransferEnv PT ENC)
    (segmentStr : String) : Outcome (Option (TransferNftSegment PT ENC) × String) :=
  match env.Unmarshal segmentStr with
  | .error _ => .returned (none, env.ErrUnmarshal)
  | .ok none => .nilDereference
  | .ok (some segmentFormat) =>
    if segmentFormat.Pk = "" || segmentFormat.Sk = "" then
      .returned (none, "[FromTransferNftSegmentJSON] invalid params")
    -- verify params
    else if segmentFormat.AccountIndex < 0 || segmentFormat.B_fee < 0 ||
        segmentFormat.GasFeeAssetId < 0 || segmentFormat.GasFee < 0 then
      .returned (none, "[FromTransferNftSegmentJSON] invalid params")
    else
      match env.FromString segmentFormat.Pk with
      | .error _ => .returned (none, env.ErrParsePoint)
      | .ok Pk =>
        match env.SetString segmentFormat.Sk with
        | none => .returned (none, env.ErrParseBigInt)
        | some Sk =>
          match env.EncFromString segmentFormat.C_fee with
          | .error _ => .returned (none, env.ErrParseEnc)
          | .ok C_fee =>
            let segment : TransferNftSegment PT ENC :=
              { AccountIndex := uint32 segmentFormat.AccountIndex
                Pk := Pk
                Sk := Sk
                NftIndex := uint32 segmentFormat.NftIndex
                ReceiverAccountIndex := uint32 segmentFormat.ReceiverAccountIndex
                C_fee := C_fee
                B_fee := uint64 segmentFormat.B_fee
                GasFeeAssetId := uint32 segmentFormat.GasFeeAssetId
                GasFee := uint64 segmentFormat.GasFee }
            .returned (some segment, env.Success)

/-! ## Sample segments and decoders -/

/-- The segment of spec 8: account 1, nft 2, asset 3, amount 100, gas fee 1, nonce 5. -/
def demoSegment : SetNftPriceSegmentFormat :=
  { AccountIndex := 1, NftIndex := 2, AssetId := 3, AssetAmount := 100,
    GasAccountIndex := 0, GasFeeAssetId := 0, GasFeeAssetAmount := 1, Nonce := 5 }

/-- The JSON text of `demoSegment`. -/
def demoSegmentStr : String :=
  "\x7b\"account_index\":1,\"nft_index\":2,\"asset_id\":3,\"asset_amount\"" ++
  ":100,\"gas_account_index\":0,\"gas_fee_asset_id\":0,\"gas_fee_asset_am" ++
  "ount\":1,\"nonce\":5\x7d"

/-- The segment of spec 8 with nonce 6. -/
def demoSegmentNonce6 : SetNftPriceSegmentFormat :=
  { AccountIndex := 1, NftIndex := 2, AssetId := 3, AssetAmount := 100,
    GasAccountIndex := 0, GasFeeAssetId := 0, GasFeeAssetAmount := 1, Nonce := 6 }

/-- The JSON text of `demoSegmentNonce6`. -/
def demoSegmentNonce6Str : String :=
  "\x7b\"account_index\":1,\"nft_index\":2,\"asset_id\":3,\"asset_amount\"" ++
  ":100,\"gas_account_index\":0,\"gas_fee_asset_id\":0,\"gas_fee_asset_am" ++
  "ount\":1,\"nonce\":6\x7d"

/-- Every index and asset id at 2^32 - 1, every amount and the nonce at 2^63 - 1. -/
def demoSegmentTop : SetNftPriceSegmentFormat :=
  { AccountIndex := 4294967295, NftIndex := 4294967295, AssetId := 4294967295,
    AssetAmount := 9223372036854775807, GasAccountIndex := 4294967295,
    GasFeeAssetId := 4294967295, GasFeeAssetAmount := 9223372036854775807,
    Nonce := 9223372036854775807 }

/-- The JSON text of `demoSegmentTop`. -/
def demoSegmentTopStr : String :=
  "\x7b\"account_index\":4294967295,\"nft_index\":4294967295,\"asset_id\"" ++
  ":4294967295,\"asset_amount\":9223372036854775807,\"gas_account_index\"" ++
  ":4294967295,\"gas_fee_asset_id\":4294967295,\"gas_fee_asset_amount\":9" ++
  "223372036854775807,\"nonce\":9223372036854775807\x7d"

/-- The numbers of the segment of spec 8 with asset_amount = 2^64 - 1. -/
def demoSegmentAmountMax : SetNftPriceSegmentFormat :=
  { AccountIndex := 1, NftIndex := 2, AssetId := 3, AssetAmount := 18446744073709551615,
    GasAccountIndex := 0, GasFeeAssetId := 0, GasFeeAssetAmount := 1, Nonce := 5 }

/-- The JSON text of `demoSegmentAmountMax`. -/
def demoSegmentAmountMaxStr : String :=
  "\x7b\"account_index\":1,\"nft_index\":2,\"asset_id\":3,\"asset_amount\"" ++
  ":18446744073709551615,\"gas_account_index\":0,\"gas_fee_asset_id\":0,\"" ++
  "gas_fee_asset_amount\":1,\"nonce\":5\x7d"

/-- The segment of spec 8 with account_index = 2^32 + 1. -/
def demoSegmentWideIndex : SetNftPriceSegmentFormat :=
  { AccountIndex := 4294967297, NftIndex := 2, AssetId := 3, AssetAmount := 100,
    GasAccountIndex := 0, GasFeeAssetId := 0, GasFeeAssetAmount := 1, Nonce := 5 }

/-- The JSON text of `demoSegmentWideIndex`. -/
def demoSegmentWideIndexStr : String :=
  "\x7b\"account_index\":4294967297,\"nft_index\":2,\"asset_id\":3,\"asse" ++
  "t_amount\":100,\"gas_account_index\":0,\"gas_fee_asset_id\":0,\"gas_fe" ++
  "e_asset_amount\":1,\"nonce\":5\x7d"

/-- A demo decoder for set-nft-price texts: the text null leaves a nil pointer, the
sample texts decode to their numbers, which are then stored in the `int64` fields, and
any other text is a syntax error.  Digest and signer are those of `demoTxEnv`. -/
def demoJsonEnv : TxEnv Nat :=
  { demoTxEnv with
    Unmarshal := fun s =>
      if s = "null" then .ok none
      else
        match [(demoSegmentStr, demoSegment), (demoSegmentNonce6Str, demoSegmentNonce6),
               (demoSegmentTopStr, demoSegmentTop),
               (demoSegmentAmountMaxStr, demoSegmentAmountMax),
               (demoSegmentWideIndexStr, demoSegmentWideIndex)].lookup s with
        | some numbers => storeSetNftPriceSegment numbers
        | none => .error "invalid character" }

/-- A well-formed transfer-nft record. -/
def demoTransfer : TransferNftSegmentFormat :=
  { AccountIndex := 1, Pk := "pk-6-13", Sk := "12345", NftIndex := 2, ReceiverAccountIndex := 3,
    C_fee := "enc-12-18", B_fee := 100, GasFeeAssetId := 1, GasFee := 2 }

/-- The JSON text of `demoTransfer`. -/
def demoTransferStr : String :=
  "\x7b\"account_index\":1,\"pk\":\"pk-6-13\",\"sk\":\"12345\",\"nft_inde" ++
  "x\":2,\"receiver_account_index\":3,\"c_fee\":\"enc-12-18\",\"b_fee\":1" ++
  "00,\"gas_fee_asset_id\":1,\"gas_fee\":2\x7d"

/-- The record `demoTransfer` with nft_index = -1. -/
def demoTransferNegativeNft : TransferNftSegmentFormat :=
  { AccountIndex := 1, Pk := "pk-6-13", Sk := "12345", NftIndex := -1, ReceiverAccountIndex := 3,
    C_fee := "enc-12-18", B_fee := 100, GasFeeAssetId := 1, GasFee := 2 }

/-- The JSON text of `demoTransferNegativeNft`. -/
def demoTransferNegativeNftStr : String :=
  "\x7b\"account_index\":1,\"pk\":\"pk-6-13\",\"sk\":\"12345\",\"nft_inde" ++
  "x\":-1,\"receiver_account_index\":3,\"c_fee\":\"enc-12-18\",\"b_fee\":" ++
  "100,\"gas_fee_asset_id\":1,\"gas_fee\":2\x7d"

/-- The record `demoTransfer` with account_index = -1. -/
def demoTransferNegativeAccount : TransferNftSegmentFormat :=
  { AccountIndex := -1, Pk := "pk-6-13", Sk := "12345", NftIndex := 2, ReceiverAccountIndex := 3,
    C_fee := "enc-12-18", B_fee := 100, GasFeeAssetId := 1, GasFee := 2 }

/-- The JSON text of `demoTransferNegativeAccount`. -/
def demoTransferNegativeAccountStr : String :=
  "\x7b\"account_index\":-1,\"pk\":\"pk-6-13\",\"sk\":\"12345\",\"nft_ind" ++
  "ex\":2,\"receiver_account_index\":3,\"c_fee\":\"enc-12-18\",\"b_fee\":" ++
  "100,\"gas_fee_asset_id\":1,\"gas_fee\":2\x7d"

/-- A demo environment for transfer-nft texts: the text null leaves a nil pointer, the
sample texts decode to their records, and one point text, one decimal text and one
ciphertext text parse. -/
def demoTransferEnv : TransferEnv (Nat × Nat) ((Nat × Nat) × (Nat × Nat)) :=
  { Unmarshal := fun s =>
      if s = "null" then .ok none
      else
        match [(demoTransferStr, demoTransfer),
               (demoTransferNegativeNftStr, demoTransferNegativeNft),
               (demoTransferNegativeAccountStr, demoTransferNegativeAccount)].lookup s with
        | some segmentFormat => .ok (some segmentFormat)
        | none => .error "invalid character"
    FromString := fun s => if s = "pk-6-13" then .ok (6, 13) else .error "invalid point"
    SetString := fun s => if s = "12345" then some 12345 else none
    EncFromString := fun s =>
      if s = "enc-12-18" then .ok ((12, 17), (18, 15)) else .error "invalid encryption"
    Success := "success"
    ErrUnmarshal := "ErrUnmarshal"
    ErrParsePoint := "ErrParsePoint"
    ErrParseBigInt := "ErrParseBigInt"
    ErrParseEnc := "ErrParseEnc" }

/-! ## Theorems: the unlock verifier -/

/-- The gated equality holds iff the points agree or the flag is 0. -/
theorem IsPointEqual_eq_true_iff {P : Type} [DecidableEq P] (e : Nat) (a b : P) :
    IsPointEqual e a b = true ↔ (a = b ∨ e = 0) := by
  simp [IsPointEqual]

/-- The constraints of `VerifyUnlockProof`, written out in the group. -/
theorem VerifyUnlockProof_eq_true_iff {P : Type} [AddCommGroup P] [DecidableEq P]
    (FixedCurveParam : Nat) (proof : UnlockProofConstraints P Nat) (params : EdCurve P)
    (hFunc : MiMC) (h : P) :
    VerifyUnlockProof FixedCurveParam proof params hFunc h = true ↔
      ((proof.Z_sk • params.Base
          = unlockChallenge FixedCurveParam proof params hFunc • proof.Pk + proof.A_pk
        ∨ proof.IsEnabled = 0) ∧
       (proof.Z_bar_r_fee • params.Base + proof.Z_skInv • (-proof.C_fee.CL)
          = proof.A_T_feeC_feeRPrimeInv +
            unlockChallenge FixedCurveParam proof params hFunc •
              (proof.T_fee + -(proof.C_fee.CR + proof.GasFee • (-h)))
        ∨ proof.IsEnabled = 0)) := by
  simp [VerifyUnlockProof, IsPointEqual_eq_true_iff, unlockEq1, unlockEq2, ScalarBaseMul,
    ScalarMul, AddPoint, Neg, ScalarMulFixedBase, ScalarMulNonFixedBase, AddGeneric]

/-- The challenge is the digest of the buffer followed by the seventeen written values. -/
theorem unlockChallenge_eq {P : Type} (FixedCurveParam : Nat)
    (proof : UnlockProofConstraints P Nat) (params : EdCurve P) (hFunc : MiMC) :
    unlockChallenge FixedCurveParam proof params hFunc =
      hFunc.digest (hFunc.data ++
        [FixedCurveParam, params.X proof.Pk, params.Y proof.Pk,
         params.X proof.A_pk, params.Y proof.A_pk,
         proof.ChainId, proof.AssetId, proof.Balance, proof.DeltaAmount,
         params.X proof.A_T_feeC_feeRPrimeInv, params.Y proof.A_T_feeC_feeRPrimeInv,
         params.X proof.C_fee.CL, params.Y proof.C_fee.CL,
         params.X proof.C_fee.CR, params.Y proof.C_fee.CR,
         proof.GasFeeAssetId, proof.GasFee]) := by
  simp [unlockChallenge, writeEncIntoBuf, writePointIntoBuf, MiMC.Write, MiMC.Sum]

/-- Scalars congruent modulo a number that annihilates the point give the same multiple. -/
theorem nsmul_congr_of_modEq {P : Type} [AddCommGroup P] {x : P} {order n m : Nat}
    (hx : order • x = 0) (h : n ≡ m [MOD order]) : n • x = m • x :=
  nsmul_eq_nsmul_iff_modEq.mpr (h.of_dvd (addOrderOf_dvd_of_nsmul_eq_zero hx))

/-- C1: for an enabled proof the constraints of VerifyUnlockProof hold iff both point
equalities hold, with c the transcript challenge: Z_sk*G = c*Pk + A_pk, and
Z_bar_r_fee*G + Z_skInv*CL' = A_T_feeC_feeRPrimeInv + c*(T_fee + CR'), where
CL' = -C_fee.CL (negated once) and CR' = -(C_fee.CR + GasFee*(-H)). -/
theorem VerifyUnlockProof_enabled_iff {P : Type} [AddCommGroup P] [DecidableEq P]
    (FixedCurveParam : Nat) (proof : UnlockProofConstraints P Nat) (params : EdCurve P)
    (hFunc : MiMC) (h : P) (hen : proof.IsEnabled = 1) :
    VerifyUnlockProof FixedCurveParam proof params hFunc h = true ↔
      (proof.Z_sk • params.Base
          = unlockChallenge FixedCurveParam proof params hFunc • proof.Pk + proof.A_pk ∧
       proof.Z_bar_r_fee • params.Base + proof.Z_skInv • (-proof.C_fee.CL)
          = proof.A_T_feeC_feeRPrimeInv +
            unlockChallenge FixedCurveParam proof params hFunc •
              (proof.T_fee + -(proof.C_fee.CR + proof.GasFee • (-h)))) := by
  rw [VerifyUnlockProof_eq_true_iff, hen]
  simp

/-- C1 at the honest demo proof: it is enabled and both equalities hold there. -/
theorem VerifyUnlockProof_enabled_iff_witness :
    demoProof.IsEnabled = 1 ∧
    (VerifyUnlockProof 0 demoProof demoCurve (NewMiMC demoDigest) 10 = true ↔
      (demoProof.Z_sk • demoCurve.Base
          = unlockChallenge 0 demoProof demoCurve (NewMiMC demoDigest) • demoProof.Pk
            + demoProof.A_pk ∧
       demoProof.Z_bar_r_fee • demoCurve.Base + demoProof.Z_skInv • (-demoProof.C_fee.CL)
          = demoProof.A_T_feeC_feeRPrimeInv +
            unlockChallenge 0 demoProof demoCurve (NewMiMC demoDigest) •
              (demoProof.T_fee + -(demoProof.C_fee.CR + demoProof.GasFee • (-10))))) :=
  ⟨rfl, VerifyUnlockProof_enabled_iff 0 demoProof demoCurve (NewMiMC demoDigest) 10 rfl⟩

/-- C2: a proof whose IsEnabled flag is false (0) satisfies the constraints of
VerifyUnlockProof whatever its other fields hold. -/
theorem VerifyUnlockProof_disabled {P : Type} [AddCommGroup P] [DecidableEq P]
    (FixedCurveParam : Nat) (proof : UnlockProofConstraints P Nat) (params : EdCurve P)
    (hFunc : MiMC) (h : P) (hen : proof.IsEnabled = 0) :
    VerifyUnlockProof FixedCurveParam proof params hFunc h = true := by
  rw [VerifyUnlockProof_eq_true_iff]
  exact ⟨Or.inr hen, Or.inr hen⟩

set_option maxRecDepth 8000 in
/-- C2 at a disabled slot: neither of the two equalities holds for its fields, and its
constraints are satisfied all the same. -/
theorem VerifyUnlockProof_disabled_witness :
    demoPadding.IsEnabled = 0 ∧
    (unlockEq1 demoPadding demoCurve
        (unlockChallenge 0 demoPadding demoCurve (NewMiMC demoDigest))).1
      ≠ (unlockEq1 demoPadding demoCurve
        (unlockChallenge 0 demoPadding demoCurve (NewMiMC demoDigest))).2 ∧
    (unlockEq2 demoPadding demoCurve 10
        (unlockChallenge 0 demoPadding demoCurve (NewMiMC demoDigest))).1
      ≠ (unlockEq2 demoPadding demoCurve 10
        (unlockChallenge 0 demoPadding demoCurve (NewMiMC demoDigest))).2 ∧
    VerifyUnlockProof 0 demoPadding demoCurve (NewMiMC demoDigest) 10 = true :=
  ⟨rfl, by decide, by decide,
    VerifyUnlockProof_disabled 0 demoPadding demoCurve (NewMiMC demoDigest) 10 rfl⟩

/-- C3 (completeness): let order annihilate the base point and C_fee.CL, and let c be any
challenge.  If Pk = sk*G, A_pk = a*G, Z_sk = a + c*sk, T_fee - (C_fee.CR - GasFee*H)
= rbar*G + s*CL', A_T_feeC_feeRPrimeInv = alpha_r*G + alpha_s*CL',
Z_bar_r_fee = alpha_r + c*rbar and Z_skInv = alpha_s + c*s (scalars modulo order,
CL' = -C_fee.CL), then both equalities of VerifyUnlockProof hold at c; and when c is
the transcript challenge the proof verifies. -/
theorem VerifyUnlockProof_complete {P : Type} [AddCommGroup P] [DecidableEq P]
    (FixedCurveParam : Nat) (proof : UnlockProofConstraints P Nat) (params : EdCurve P)
    (hFunc : MiMC) (h : P) (order sk a alpha_r alpha_s rbar s c : Nat)
    (hG : order • params.Base = 0) (hCL : order • proof.C_fee.CL = 0)
    (hPk : proof.Pk = sk • params.Base)
    (hA : proof.A_pk = a • params.Base)
    (hZsk : proof.Z_sk ≡ a + c * sk [MOD order])
    (hT : proof.T_fee - (proof.C_fee.CR - proof.GasFee • h)
            = rbar • params.Base + s • (-proof.C_fee.CL))
    (hAT : proof.A_T_feeC_feeRPrimeInv = alpha_r • params.Base + alpha_s • (-proof.C_fee.CL))
    (hZr : proof.Z_bar_r_fee ≡ alpha_r + c * rbar [MOD order])
    (hZs : proof.Z_skInv ≡ alpha_s + c * s [MOD order]) :
    (unlockEq1 proof params c).1 = (unlockEq1 proof params c).2 ∧
    (unlockEq2 proof params h c).1 = (unlockEq2 proof params h c).2 ∧
    (c = unlockChallenge FixedCurveParam proof params hFunc →
      VerifyUnlockProof FixedCurveParam proof params hFunc h = true) := by
  have hCLn : order • (-proof.C_fee.CL) = 0 := by rw [smul_neg, hCL, neg_zero]
  have e1 : proof.Z_sk • params.Base = c • proof.Pk + proof.A_pk := by
    rw [nsmul_congr_of_modEq hG hZsk, hPk, hA, add_nsmul, mul_nsmul', add_comm]
  have hT2 : proof.T_fee + -(proof.C_fee.CR + proof.GasFee • (-h))
      = rbar • params.Base + s • (-proof.C_fee.CL) := by
    rw [← hT, smul_neg]; abel
  have e2 : proof.Z_bar_r_fee • params.Base + proof.Z_skInv • (-proof.C_fee.CL)
      = proof.A_T_feeC_feeRPrimeInv +
        c • (proof.T_fee + -(proof.C_fee.CR + proof.GasFee • (-h))) := by
    rw [nsmul_congr_of_modEq hG hZr, nsmul_congr_of_modEq hCLn hZs, hT2, hAT, add_nsmul,
      add_nsmul, mul_nsmul', mul_nsmul', nsmul_add]
    abel
  refine ⟨?_, ?_, ?_⟩
  · simpa [unlockEq1, ScalarMulFixedBase, ScalarMulNonFixedBase, AddGeneric] using e1
  · simpa [unlockEq2, ScalarBaseMul, ScalarMul, AddPoint, Neg] using e2
  · intro hc
    rw [VerifyUnlockProof_eq_true_iff, ← hc]
    exact ⟨Or.inl e1, Or.inl e2⟩

/-- C3 at the honest demo proof (order 13, sk = 3, a = 5, alpha_r = 6, alpha_s = 1,
rbar = 2, s = 4, challenge 5). -/
theorem VerifyUnlockProof_complete_witness :
    VerifyUnlockProof 0 demoProof demoCurve (NewMiMC demoDigest) 10 = true :=
  (VerifyUnlockProof_complete 0 demoProof demoCurve (NewMiMC demoDigest) 10
    13 3 5 6 1 2 4 5 (by decide) (by decide) (by decide) (by decide) (by decide)
    (by decide) (by decide) (by decide) (by decide)).2.2 (by decide)

/-- C4: the challenge computed in VerifyUnlockProof with a fresh hasher is the digest of
exactly: the fixed curve parameter, Pk, A_pk, ChainId, AssetId, Balance, DeltaAmount,
A_T_feeC_feeRPrimeInv, C_fee.CL, C_fee.CR, GasFeeAssetId, GasFee (points by their two
coordinates); so two proofs that agree on these fields get the same challenge,
whatever their Z_sk, Z_skInv, Z_bar_r_fee, T_fee and IsEnabled are. -/
theorem unlockChallenge_transcript {P : Type} (FixedCurveParam : Nat) (params : EdCurve P) :
    (∀ (proof : UnlockProofConstraints P Nat) (digest : List Nat → Nat),
      unlockChallenge FixedCurveParam proof params (NewMiMC digest) =
        digest
          [FixedCurveParam, params.X proof.Pk, params.Y proof.Pk,
           params.X proof.A_pk, params.Y proof.A_pk,
           proof.ChainId, proof.AssetId, proof.Balance, proof.DeltaAmount,
           params.X proof.A_T_feeC_feeRPrimeInv, params.Y proof.A_T_feeC_feeRPrimeInv,
           params.X proof.C_fee.CL, params.Y proof.C_fee.CL,
           params.X proof.C_fee.CR, params.Y proof.C_fee.CR,
           proof.GasFeeAssetId, proof.GasFee]) ∧
    (∀ (p q : UnlockProofConstraints P Nat) (hFunc : MiMC),
      p.Pk = q.Pk → p.A_pk = q.A_pk → p.ChainId = q.ChainId → p.AssetId = q.AssetId →
      p.Balance = q.Balance → p.DeltaAmount = q.DeltaAmount →
      p.A_T_feeC_feeRPrimeInv = q.A_T_feeC_feeRPrimeInv → p.C_fee = q.C_fee →
      p.GasFeeAssetId = q.GasFeeAssetId → p.GasFee = q.GasFee →
      unlockChallenge FixedCurveParam p params hFunc
        = unlockChallenge FixedCurveParam q params hFunc) := by
  refine ⟨?_, ?_⟩
  · intro proof digest
    rw [unlockChallenge_eq]
    simp [NewMiMC]
  · intro p q hFunc h1 h2 h3 h4 h5 h6 h7 h8 h9 h10
    rw [unlockChallenge_eq, unlockChallenge_eq, h1, h2, h3, h4, h5, h6, h7, h8, h9, h10]

/-- C4 at the demo proof and a copy with other responses, another T_fee and the flag
cleared: both get the challenge 5. -/
theorem unlockChallenge_transcript_witness :
    unlockChallenge 0 demoProof demoCurve (NewMiMC demoDigest)
      = unlockChallenge 0
          { demoProof with Z_sk := 1, Z_skInv := 2, Z_bar_r_fee := 4, T_fee := 11,
                           IsEnabled := 0 }
          demoCurve (NewMiMC demoDigest) :=
  (unlockChallenge_transcript 0 demoCurve).2 demoProof
    { demoProof with Z_sk := 1, Z_skInv := 2, Z_bar_r_fee := 4, T_fee := 11, IsEnabled := 0 }
    (NewMiMC demoDigest) rfl rfl rfl rfl rfl rfl rfl rfl rfl rfl

/-- Flipping bit k of z adds or removes 2^k. -/
theorem xor_two_pow_cases (k : Nat) :
    ∀ z : Nat, z ^^^ 2 ^ k = z + 2 ^ k ∨ (z ^^^ 2 ^ k) + 2 ^ k = z := by
  induction k with
  | zero =>
    intro z
    have hd : (z ^^^ 2 ^ 0) / 2 = z / 2 := by
      rw [Nat.xor_div_two]; simp
    have hm : (z ^^^ 2 ^ 0) % 2 = (z + 2 ^ 0) % 2 := Nat.xor_mod_two_eq
    simp only [pow_zero] at hd hm ⊢
    omega
  | succ k ih =>
    intro z
    have hd : (z ^^^ 2 ^ (k + 1)) / 2 = z / 2 ^^^ 2 ^ k := by
      rw [Nat.xor_div_two, pow_succ, Nat.mul_div_cancel _ (by decide : 0 < 2)]
    have hm : (z ^^^ 2 ^ (k + 1)) % 2 = (z + 2 ^ (k + 1)) % 2 := Nat.xor_mod_two_eq
    have hp : 2 ^ (k + 1) = 2 * 2 ^ k := by rw [pow_succ, mul_comm]
    rcases ih (z / 2) with h | h <;> omega

/-- A number of odd order other than 1 never divides the change made by a bit flip. -/
theorem flip_not_modEq {n : Nat} (hodd : Odd n) (hn : n ≠ 1) (z k : Nat) :
    ¬ (z ^^^ 2 ^ k ≡ z [MOD n]) := by
  intro hcong
  have hdvd : n ∣ 2 ^ k := by
    rcases xor_two_pow_cases k z with h | h
    · rw [h] at hcong
      have h0 : z + 2 ^ k ≡ z + 0 [MOD n] := by simpa using hcong
      exact (Nat.modEq_zero_iff_dvd).mp (Nat.ModEq.add_left_cancel' z h0)
    · have h0 : (z ^^^ 2 ^ k) + 0 ≡ (z ^^^ 2 ^ k) + 2 ^ k [MOD n] := by
        rw [h]; simpa using hcong
      exact (Nat.modEq_zero_iff_dvd).mp (Nat.ModEq.add_left_cancel' _ h0).symm
  have hcop : Nat.Coprime n (2 ^ k) :=
    Nat.Coprime.pow_right k (Nat.coprime_two_right.mpr hodd)
  exact hn (Nat.Coprime.eq_one_of_dvd hcop hdvd)

/-- The base point of the demo curve has order 13. -/
theorem demoCurve_order : addOrderOf demoCurve.Base = 13 :=
  haveI : Fact (Nat.Prime 13) := ⟨by norm_num⟩
  addOrderOf_eq_prime (by decide) (by decide)

set_option maxRecDepth 8000 in
/-- The honest demo proof satisfies the constraints. -/
theorem demoProof_verifies :
    VerifyUnlockProof 0 demoProof demoCurve (NewMiMC demoDigest) 10 = true := by
  decide

/-- C5 (soundness under corruption of Z_sk): for an enabled proof that verifies,
replacing Z_sk by any value not congruent to it modulo the order of the base point,
all other fields unchanged, makes VerifyUnlockProof fail; when that order is odd and
the base point is not the identity (as for the prime-order base point of the curve),
this covers the value obtained by flipping any single bit of Z_sk. -/
theorem VerifyUnlockProof_corrupt_Z_sk {P : Type} [AddCommGroup P] [DecidableEq P]
    (FixedCurveParam : Nat) (proof : UnlockProofConstraints P Nat) (params : EdCurve P)
    (hFunc : MiMC) (h : P)
    (hv : VerifyUnlockProof FixedCurveParam proof params hFunc h = true)
    (hen : proof.IsEnabled = 1) :
    (∀ z : Nat, ¬ (z ≡ proof.Z_sk [MOD addOrderOf params.Base]) →
      VerifyUnlockProof FixedCurveParam { proof with Z_sk := z } params hFunc h = false) ∧
    (Odd (addOrderOf params.Base) → params.Base ≠ 0 → ∀ k : Nat,
      VerifyUnlockProof FixedCurveParam { proof with Z_sk := proof.Z_sk ^^^ 2 ^ k }
        params hFunc h = false) := by
  have main : ∀ z : Nat, ¬ (z ≡ proof.Z_sk [MOD addOrderOf params.Base]) →
      VerifyUnlockProof FixedCurveParam { proof with Z_sk := z } params hFunc h = false := by
    intro z hz
    have h1 := ((VerifyUnlockProof_enabled_iff FixedCurveParam proof params hFunc h hen).mp
      hv).1
    rw [Bool.eq_false_iff]
    intro hv2
    have h2 := ((VerifyUnlockProof_enabled_iff FixedCurveParam { proof with Z_sk := z }
      params hFunc h hen).mp hv2).1
    have hc : unlockChallenge FixedCurveParam { proof with Z_sk := z } params hFunc
        = unlockChallenge FixedCurveParam proof params hFunc := by
      rw [unlockChallenge_eq, unlockChallenge_eq]
    rw [hc, ← h1] at h2
    exact hz (nsmul_eq_nsmul_iff_modEq.mp h2)
  refine ⟨main, ?_⟩
  intro hodd hG k
  apply main
  apply flip_not_modEq hodd
  intro h1
  exact hG (AddMonoid.addOrderOf_eq_one_iff.mp h1)

/-- C5 at the honest demo proof (base point of order 13, Z_sk = 7): the response 8 and
the response with bit 2 flipped are both rejected. -/
theorem VerifyUnlockProof_corrupt_Z_sk_witness :
    VerifyUnlockProof 0 { demoProof with Z_sk := 8 } demoCurve (NewMiMC demoDigest) 10 = false ∧
    VerifyUnlockProof 0 { demoProof with Z_sk := demoProof.Z_sk ^^^ 2 ^ 2 } demoCurve
      (NewMiMC demoDigest) 10 = false :=
  have ho : addOrderOf demoCurve.Base = 13 := demoCurve_order
  have hw := VerifyUnlockProof_corrupt_Z_sk 0 demoProof demoCurve (NewMiMC demoDigest) 10
    demoProof_verifies rfl
  ⟨hw.1 8 (by rw [ho]; decide), hw.2 (by rw [ho]; decide) (by decide) 2⟩

set_option maxRecDepth 8000 in
/-- C6 counterexample: the demo proof on chain 21 is enabled and verifies (challenge 4);
replacing its T_fee = 6 by the different point 19 = 6 + 13, which differs from it by the
point of order 2, leaves every constraint satisfied. -/
theorem VerifyUnlockProof_corrupt_T_fee_counterexample :
    VerifyUnlockProof 0 demoProofEvenChallenge demoCurve (NewMiMC demoDigest) 10 = true ∧
    demoProofEvenChallenge.IsEnabled = 1 ∧
    (19 : ZMod 26) ≠ demoProofEvenChallenge.T_fee ∧
    VerifyUnlockProof 0 { demoProofEvenChallenge with T_fee := 19 } demoCurve
      (NewMiMC demoDigest) 10 = true := by
  decide

/-- C6 (amended): for an enabled proof that verifies, replacing T_fee by a point T, all
other fields unchanged, makes VerifyUnlockProof fail exactly when c*(T - T_fee) is not
the identity, c being the challenge (which does not depend on T_fee); hence every
different T is rejected when no point other than the identity is annihilated by c. -/
theorem VerifyUnlockProof_corrupt_T_fee {P : Type} [AddCommGroup P] [DecidableEq P]
    (FixedCurveParam : Nat) (proof : UnlockProofConstraints P Nat) (params : EdCurve P)
    (hFunc : MiMC) (h : P)
    (hv : VerifyUnlockProof FixedCurveParam proof params hFunc h = true)
    (hen : proof.IsEnabled = 1) :
    (∀ T : P,
      VerifyUnlockProof FixedCurveParam { proof with T_fee := T } params hFunc h = false ↔
        unlockChallenge FixedCurveParam proof params hFunc • (T - proof.T_fee) ≠ 0) ∧
    ((∀ p : P, unlockChallenge FixedCurveParam proof params hFunc • p = 0 → p = 0) →
      ∀ T : P, T ≠ proof.T_fee →
        VerifyUnlockProof FixedCurveParam { proof with T_fee := T } params hFunc h
          = false) := by
  have main : ∀ T : P,
      VerifyUnlockProof FixedCurveParam { proof with T_fee := T } params hFunc h = false ↔
        unlockChallenge FixedCurveParam proof params hFunc • (T - proof.T_fee) ≠ 0 := by
    intro T
    obtain ⟨h1, h2⟩ :=
      (VerifyUnlockProof_enabled_iff FixedCurveParam proof params hFunc h hen).mp hv
    have hc : unlockChallenge FixedCurveParam { proof with T_fee := T } params hFunc
        = unlockChallenge FixedCurveParam proof params hFunc := by
      rw [unlockChallenge_eq, unlockChallenge_eq]
    have key := VerifyUnlockProof_enabled_iff FixedCurveParam { proof with T_fee := T }
      params hFunc h hen
    rw [Bool.eq_false_iff, Ne, key, hc]
    apply not_congr
    dsimp only
    constructor
    · rintro ⟨_, h3⟩
      rw [h2] at h3
      have h4 := add_left_cancel h3
      rw [nsmul_add, nsmul_add] at h4
      rw [nsmul_sub, sub_eq_zero]
      exact (add_right_cancel h4).symm
    · intro h3
      refine ⟨h1, ?_⟩
      rw [nsmul_sub, sub_eq_zero] at h3
      rw [h2, nsmul_add, nsmul_add, h3]
  refine ⟨main, ?_⟩
  intro hinj T hT
  rw [main]
  intro h0
  exact hT (sub_eq_zero.mp (hinj _ h0))

/-- C6 (amended) at the honest demo proof, whose challenge 5 is odd: the point 19 is
rejected in place of T_fee = 6. -/
theorem VerifyUnlockProof_corrupt_T_fee_witness :
    VerifyUnlockProof 0 { demoProof with T_fee := 19 } demoCurve (NewMiMC demoDigest) 10
      = false :=
  ((VerifyUnlockProof_corrupt_T_fee 0 demoProof demoCurve (NewMiMC demoDigest) 10
    demoProof_verifies rfl).1 19).mpr (by decide)

/-! ## Theorems: the witness builder -/

/-- When the native check fails or errors, `SetUnlockProofWitness` returns the zero
witness and an error. -/
theorem SetUnlockProofWitness_of_invalid {NP NE : Type} (env : WitnessEnv NP NE)
    (proof : UnlockProof NP NE) (isEnabled : Bool)
    (h : (env.Verify proof).1 = false ∨ (env.Verify proof).2 ≠ none) :
    (SetUnlockProofWitness env (some proof) isEnabled).1 = zeroWitness ∧
    (SetUnlockProofWitness env (some proof) isEnabled).2 ≠ none := by
  rcases hV : env.Verify proof with ⟨res, err⟩
  rw [hV] at h
  cases err with
  | some e => simp [SetUnlockProofWitness, hV]
  | none =>
    have hres : res = false := by simpa using h
    simp [SetUnlockProofWitness, hV, hres]

/-- C7: for a non-nil proof, if the native check proof.Verify() returns false or returns
an error, SetUnlockProofWitness returns a non-nil error. -/
theorem SetUnlockProofWitness_invalid_proof_error {NP NE : Type} (env : WitnessEnv NP NE)
    (proof : UnlockProof NP NE) (isEnabled : Bool)
    (h : (env.Verify proof).1 = false ∨ (env.Verify proof).2 ≠ none) :
    (SetUnlockProofWitness env (some proof) isEnabled).2 ≠ none :=
  (SetUnlockProofWitness_of_invalid env proof isEnabled h).2

/-- C7 at a demo proof with a wrong response (the check returns false) and at one with
a nil public key (the check returns an error). -/
theorem SetUnlockProofWitness_invalid_proof_error_witness :
    (SetUnlockProofWitness demoWitnessEnv (some { demoNativeProof with Z_sk := 6 })
      true).2 ≠ none ∧
    (SetUnlockProofWitness demoWitnessEnv (some { demoNativeProof with Pk := none })
      true).2 ≠ none :=
  ⟨SetUnlockProofWitness_invalid_proof_error demoWitnessEnv
      { demoNativeProof with Z_sk := 6 } true (Or.inl (by decide)),
   SetUnlockProofWitness_invalid_proof_error demoWitnessEnv
      { demoNativeProof with Pk := none } true (Or.inr (by decide))⟩

/-- C8 (at the failing input): for a nil proof SetUnlockProofWitness returns the zero
witness, with no field assigned, together with a nil error. -/
theorem SetUnlockProofWitness_nil_proof {NP NE : Type} (env : WitnessEnv NP NE)
    (isEnabled : Bool) :
    SetUnlockProofWitness env none isEnabled = (zeroWitness, none) := by
  rfl

/-- For a non-nil proof a nil error means every field was assigned from the proof. -/
theorem SetUnlockProofWitness_ok {NP NE : Type} (env : WitnessEnv NP NE)
    (proof : UnlockProof NP NE) (isEnabled : Bool)
    (h : (SetUnlockProofWitness env (some proof) isEnabled).2 = none) :
    (SetUnlockProofWitness env (some proof) isEnabled).1 =
      { A_pk := (env.SetPointWitness proof.A_pk).1
        Z_sk := Variable.zero.Assign proof.Z_sk
        Z_skInv := Variable.zero.Assign proof.Z_skInv
        Pk := (env.SetPointWitness proof.Pk).1
        ChainId := Variable.zero.Assign (toUint64 proof.ChainId)
        AssetId := Variable.zero.Assign (toUint64 proof.AssetId)
        Balance := Variable.zero.Assign proof.Balance
        DeltaAmount := Variable.zero.Assign proof.DeltaAmount
        A_T_feeC_feeRPrimeInv := (env.SetPointWitness proof.A_T_feeC_feeRPrimeInv).1
        Z_bar_r_fee := Variable.zero.Assign proof.Z_bar_r_fee
        C_fee := (env.SetElGamalEncWitness proof.C_fee).1
        T_fee := (env.SetPointWitness proof.T_fee).1
        GasFeeAssetId := Variable.zero.Assign (toUint64 proof.GasFeeAssetId)
        GasFee := Variable.zero.Assign proof.GasFee
        IsEnabled := env.SetBoolWitness isEnabled } := by
  revert h
  rcases hV : env.Verify proof with ⟨res, err⟩
  rcases h1 : env.SetPointWitness proof.A_pk with ⟨v1, e1⟩
  rcases h2 : env.SetPointWitness proof.Pk with ⟨v2, e2⟩
  rcases h3 : env.SetPointWitness proof.A_T_feeC_feeRPrimeInv with ⟨v3, e3⟩
  rcases h4 : env.SetElGamalEncWitness proof.C_fee with ⟨v4, e4⟩
  rcases h5 : env.SetPointWitness proof.T_fee with ⟨v5, e5⟩
  cases err <;> cases res <;> cases e1 <;> cases e2 <;> cases e3 <;> cases e4 <;> cases e5 <;>
    simp [SetUnlockProofWitness, hV, h1, h2, h3, h4, h5, zeroWitness, Variable.Assign]

/-- C9 counterexample: with a nil T_fee the demo proof passes the native check, the
last SetPointWitness fails, and the witness returned with the error has A_pk (and every
field assigned before T_fee) set: it is not the zero witness. -/
theorem SetUnlockProofWitness_all_or_nothing_counterexample :
    (SetUnlockProofWitness demoWitnessEnv (some { demoNativeProof with T_fee := none })
      true).2 = some "nil point" ∧
    (SetUnlockProofWitness demoWitnessEnv (some { demoNativeProof with T_fee := none })
      true).1.A_pk = assignedPoint (10, 25) ∧
    (SetUnlockProofWitness demoWitnessEnv (some { demoNativeProof with T_fee := none })
      true).1 ≠ zeroWitness := by
  decide

/-- C9 (amended): when SetUnlockProofWitness returns an error because the native check
failed or returned an error, the returned witness is the zero witness, no field
assigned.  When a setter fails after the native check passed, the error of that setter
is returned together with the witness as filled so far: every field assigned before the
failing call holds its assigned value, the field of the failing call holds what the
setter returned, and every later field is unassigned.  The five conjuncts after the
first are the five setter calls, in the order A_pk, Pk, A_T_feeC_feeRPrimeInv, C_fee,
T_fee. -/
theorem SetUnlockProofWitness_error_paths {NP NE : Type} (env : WitnessEnv NP NE)
    (proof : UnlockProof NP NE) (isEnabled : Bool) :
    (((env.Verify proof).1 = false ∨ (env.Verify proof).2 ≠ none) →
      (SetUnlockProofWitness env (some proof) isEnabled).2 ≠ none ∧
      (SetUnlockProofWitness env (some proof) isEnabled).1 = zeroWitness) ∧
    (env.Verify proof = (true, none) →
      ∀ e : Error, (env.SetPointWitness proof.A_pk).2 = some e →
        SetUnlockProofWitness env (some proof) isEnabled =
          ({ A_pk := (env.SetPointWitness proof.A_pk).1,
             Z_sk := Variable.zero,
             Z_skInv := Variable.zero,
             Pk := Point.zero,
             ChainId := Variable.zero,
             AssetId := Variable.zero,
             Balance := Variable.zero,
             DeltaAmount := Variable.zero,
             A_T_feeC_feeRPrimeInv := Point.zero,
             Z_bar_r_fee := Variable.zero,
             C_fee := { CL := Point.zero, CR := Point.zero },
             T_fee := Point.zero,
             GasFeeAssetId := Variable.zero,
             GasFee := Variable.zero,
             IsEnabled := Variable.zero },
           some e)) ∧
    (env.Verify proof = (true, none) →
      (env.SetPointWitness proof.A_pk).2 = none →
      ∀ e : Error, (env.SetPointWitness proof.Pk).2 = some e →
        SetUnlockProofWitness env (some proof) isEnabled =
          ({ A_pk := (env.SetPointWitness proof.A_pk).1,
             Z_sk := Variable.zero,
             Z_skInv := Variable.zero,
             Pk := (env.SetPointWitness proof.Pk).1,
             ChainId := Variable.zero,
             AssetId := Variable.zero,
             Balance := Variable.zero,
             DeltaAmount := Variable.zero,
             A_T_feeC_feeRPrimeInv := Point.zero,
             Z_bar_r_fee := Variable.zero,
             C_fee := { CL := Point.zero, CR := Point.zero },
             T_fee := Point.zero,
             GasFeeAssetId := Variable.zero,
             GasFee := Variable.zero,
             IsEnabled := Variable.zero },
           some e)) ∧
    (env.Verify proof = (true, none) →
      (env.SetPointWitness proof.A_pk).2 = none →
      (env.SetPointWitness proof.Pk).2 = none →
      ∀ e : Error, (env.SetPointWitness proof.A_T_feeC_feeRPrimeInv).2 = some e →
        SetUnlockProofWitness env (some proof) isEnabled =
          ({ A_pk := (env.SetPointWitness proof.A_pk).1,
             Z_sk := Variable.zero.Assign proof.Z_sk,
             Z_skInv := Variable.zero.Assign proof.Z_skInv,
             Pk := (env.SetPointWitness proof.Pk).1,
             ChainId := Variable.zero.Assign (toUint64 proof.ChainId),
             AssetId := Variable.zero.Assign (toUint64 proof.AssetId),
             Balance := Variable.zero.Assign proof.Balance,
             DeltaAmount := Variable.zero.Assign proof.DeltaAmount,
             A_T_feeC_feeRPrimeInv := (env.SetPointWitness proof.A_T_feeC_feeRPrimeInv).1,
             Z_bar_r_fee := Variable.zero,
             C_fee := { CL := Point.zero, CR := Point.zero },
             T_fee := Point.zero,
             GasFeeAssetId := Variable.zero,
             GasFee := Variable.zero,
             IsEnabled := Variable.zero },
           some e)) ∧
    (env.Verify proof = (true, none) →
      (env.SetPointWitness proof.A_pk).2 = none →
      (env.SetPointWitness proof.Pk).2 = none →
      (env.SetPointWitness proof.A_T_feeC_feeRPrimeInv).2 = none →
      ∀ e : Error, (env.SetElGamalEncWitness proof.C_fee).2 = some e →
        SetUnlockProofWitness env (some proof) isEnabled =
          ({ A_pk := (env.SetPointWitness proof.A_pk).1,
             Z_sk := Variable.zero.Assign proof.Z_sk,
             Z_skInv := Variable.zero.Assign proof.Z_skInv,
             Pk := (env.SetPointWitness proof.Pk).1,
             ChainId := Variable.zero.Assign (toUint64 proof.ChainId),
             AssetId := Variable.zero.Assign (toUint64 proof.AssetId),
             Balance := Variable.zero.Assign proof.Balance,
             DeltaAmount := Variable.zero.Assign proof.DeltaAmount,
             A_T_feeC_feeRPrimeInv := (env.SetPointWitness proof.A_T_feeC_feeRPrimeInv).1,
             Z_bar_r_fee := Variable.zero.Assign proof.Z_bar_r_fee,
             C_fee := (env.SetElGamalEncWitness proof.C_fee).1,
             T_fee := Point.zero,
             GasFeeAssetId := Variable.zero,
             GasFee := Variable.zero,
             IsEnabled := Variable.zero },
           some e)) ∧
    (env.Verify proof = (true, none) →
      (env.SetPointWitness proof.A_pk).2 = none →
      (env.SetPointWitness proof.Pk).2 = none →
      (env.SetPointWitness proof.A_T_feeC_feeRPrimeInv).2 = none →
      (env.SetElGamalEncWitness proof.C_fee).2 = none →
      ∀ e : Error, (env.SetPointWitness proof.T_fee).2 = some e →
        SetUnlockProofWitness env (some proof) isEnabled =
          ({ A_pk := (env.SetPointWitness proof.A_pk).1,
             Z_sk := Variable.zero.Assign proof.Z_sk,
             Z_skInv := Variable.zero.Assign proof.Z_skInv,
             Pk := (env.SetPointWitness proof.Pk).1,
             ChainId := Variable.zero.Assign (toUint64 proof.ChainId),
             AssetId := Variable.zero.Assign (toUint64 proof.AssetId),
             Balance := Variable.zero.Assign proof.Balance,
             DeltaAmount := Variable.zero.Assign proof.DeltaAmount,
             A_T_feeC_feeRPrimeInv := (env.SetPointWitness proof.A_T_feeC_feeRPrimeInv).1,
             Z_bar_r_fee := Variable.zero.Assign proof.Z_bar_r_fee,
             C_fee := (env.SetElGamalEncWitness proof.C_fee).1,
             T_fee := (env.SetPointWitness proof.T_fee).1,
             GasFeeAssetId := Variable.zero,
             GasFee := Variable.zero,
             IsEnabled := Variable.zero },
           some e)) := by
  refine ⟨fun h => ?_, fun hV e he => ?_, fun hV n1 e he => ?_, fun hV n1 n2 e he => ?_,
    fun hV n1 n2 n3 e he => ?_, fun hV n1 n2 n3 n4 e he => ?_⟩
  · exact ⟨(SetUnlockProofWitness_of_invalid env proof isEnabled h).2,
      (SetUnlockProofWitness_of_invalid env proof isEnabled h).1⟩
  · simp [SetUnlockProofWitness, hV, he, zeroWitness]
  · simp [SetUnlockProofWitness, hV, n1, he, zeroWitness]
  · simp [SetUnlockProofWitness, hV, n1, n2, he, zeroWitness]
  · simp [SetUnlockProofWitness, hV, n1, n2, n3, he, zeroWitness]
  · simp [SetUnlockProofWitness, hV, n1, n2, n3, n4, he, zeroWitness]

/-- C9 (amended) at the demo proof with a wrong response, where the zero witness comes
back, and at the demo proof with a nil T_fee, where the error of the last setter comes
back with every field up to C_fee assigned and the fields from T_fee on unassigned. -/
theorem SetUnlockProofWitness_error_paths_witness :
    ((SetUnlockProofWitness demoWitnessEnv (some { demoNativeProof with Z_sk := 6 })
        true).2 ≠ none ∧
      (SetUnlockProofWitness demoWitnessEnv (some { demoNativeProof with Z_sk := 6 })
        true).1 = zeroWitness) ∧
    SetUnlockProofWitness demoWitnessEnv (some { demoNativeProof with T_fee := none }) true =
      ({ A_pk := assignedPoint (10, 25), Z_sk := Variable.zero.Assign 7,
         Z_skInv := Variable.zero.Assign 8, Pk := assignedPoint (6, 13),
         ChainId := Variable.zero.Assign 7, AssetId := Variable.zero.Assign 2,
         Balance := Variable.zero.Assign 100, DeltaAmount := Variable.zero.Assign 10,
         A_T_feeC_feeRPrimeInv := assignedPoint (0, 3),
         Z_bar_r_fee := Variable.zero.Assign 3,
         C_fee := { CL := assignedPoint (12, 17), CR := assignedPoint (18, 15) },
         T_fee := Point.zero, GasFeeAssetId := Variable.zero, GasFee := Variable.zero,
         IsEnabled := Variable.zero },
       some "nil point") :=
  ⟨(SetUnlockProofWitness_error_paths demoWitnessEnv { demoNativeProof with Z_sk := 6 }
      true).1 (Or.inl (by decide)),
   (SetUnlockProofWitness_error_paths demoWitnessEnv { demoNativeProof with T_fee := none }
      true).2.2.2.2.2 (by decide) (by decide) (by decide) (by decide) (by decide)
      "nil point" (by decide)⟩

/-! ## Theorems: the set-nft-price transaction -/

/-- Conversion to `uint32` keeps the value modulo 2^32. -/
theorem uint32_cast (x : Int) : (uint32 x : Int) = x % 2 ^ 32 := by
  unfold uint32
  exact Int.toNat_of_nonneg (Int.emod_nonneg x (by norm_num))

/-- Conversion to `uint64` keeps the value modulo 2^64. -/
theorem uint64_cast (x : Int) : (uint64 x : Int) = x % 2 ^ 64 := by
  unfold uint64
  exact Int.toNat_of_nonneg (Int.emod_nonneg x (by norm_num))

set_option maxRecDepth 20000 in
/-- C10 counterexample: on the segment text with account_index = -1 and a signer that
succeeds, ConstructSetNftPriceTxInfo returns no error but a signed transaction whose
AccountIndex is 4294967295. -/
theorem ConstructSetNftPriceTxInfo_negative_counterexample :
    demoNegativeSegment.AccountIndex = -1 ∧
    ConstructSetNftPriceTxInfo demoTxEnv 9 demoNegativeSegmentStr =
      .returned
        (some { AccountIndex := 4294967295, NftIndex := 2, AssetId := 3, AssetAmount := 100,
                GasAccountIndex := 0, GasFeeAssetId := 0, GasFeeAssetAmount := 1, Nonce := 5,
                Sig := [40] },
         none) := by
  decide

/-- C10 (amended): ConstructSetNftPriceTxInfo makes no sign check.  For every segment
that decodes, negative fields included, it converts each field modulo 2^32 (indices
and asset ids) or 2^64 (amounts and nonce), computes the message hash of the converted
values and calls the signer on it; it returns an error and no transaction exactly when
the signer fails, and otherwise the signed transaction with the converted fields. -/
theorem ConstructSetNftPriceTxInfo_no_sign_check {SK : Type} (env : TxEnv SK) (sk : SK)
    (segmentStr : String) (seg : SetNftPriceSegmentFormat)
    (hdec : env.Unmarshal segmentStr = .ok (some seg)) :
    (∀ err : Error,
      env.Sign sk
          (ComputeSetNftPriceMsgHash (txInfoOfSegment seg) { digest := env.digest, data := [] })
          { digest := env.digest, data := [] } = .error err →
        ConstructSetNftPriceTxInfo env sk segmentStr = .returned (none, some err)) ∧
    (∀ sigBytes : List Nat,
      env.Sign sk
          (ComputeSetNftPriceMsgHash (txInfoOfSegment seg) { digest := env.digest, data := [] })
          { digest := env.digest, data := [] } = .ok sigBytes →
        ∃ txInfo : SetNftPriceTxInfo,
          ConstructSetNftPriceTxInfo env sk segmentStr = .returned (some txInfo, none) ∧
          txInfo.Sig = sigBytes ∧
          (txInfo.AccountIndex : Int) = seg.AccountIndex % 2 ^ 32 ∧
          (txInfo.NftIndex : Int) = seg.NftIndex % 2 ^ 32 ∧
          (txInfo.AssetId : Int) = seg.AssetId % 2 ^ 32 ∧
          (txInfo.AssetAmount : Int) = seg.AssetAmount % 2 ^ 64 ∧
          (txInfo.GasAccountIndex : Int) = seg.GasAccountIndex % 2 ^ 32 ∧
          (txInfo.GasFeeAssetId : Int) = seg.GasFeeAssetId % 2 ^ 32 ∧
          (txInfo.GasFeeAssetAmount : Int) = seg.GasFeeAssetAmount % 2 ^ 64 ∧
          (txInfo.Nonce : Int) = seg.Nonce % 2 ^ 64) := by
  refine ⟨fun err hs => ?_, fun sigBytes hs => ?_⟩
  · simp [ConstructSetNftPriceTxInfo, hdec, Hash.Reset, hs]
  · refine ⟨{ txInfoOfSegment seg with Sig := sigBytes }, ?_, rfl, ?_⟩
    · simp [ConstructSetNftPriceTxInfo, hdec, Hash.Reset, hs]
    · simp [txInfoOfSegment, uint32_cast, uint64_cast]

set_option maxRecDepth 20000 in
/-- C10 (amended) at the segment with account_index = -1: with the key 0 the signer
fails and the error is returned; with the key 9 a transaction is returned. -/
theorem ConstructSetNftPriceTxInfo_no_sign_check_witness :
    ConstructSetNftPriceTxInfo demoTxEnv 0 demoNegativeSegmentStr
      = .returned (none, some "invalid key") ∧
    ∃ txInfo : SetNftPriceTxInfo,
      ConstructSetNftPriceTxInfo demoTxEnv 9 demoNegativeSegmentStr
        = .returned (some txInfo, none) ∧
      (txInfo.AccountIndex : Int) = demoNegativeSegment.AccountIndex % 2 ^ 32 :=
  ⟨(ConstructSetNftPriceTxInfo_no_sign_check demoTxEnv 0 demoNegativeSegmentStr
      demoNegativeSegment (by rfl)).1 "invalid key" (by rfl),
   let ⟨txInfo, h1, _, h2, _⟩ :=
     (ConstructSetNftPriceTxInfo_no_sign_check demoTxEnv 9 demoNegativeSegmentStr
       demoNegativeSegment (by rfl)).2 [40] (by rfl)
   ⟨txInfo, h1, h2⟩⟩

/-! ## Theorems: ranges, hash and signature of the set-nft-price transaction -/

/-- The message hash is the digest of the message bytes, whatever the hasher held. -/
theorem ComputeSetNftPriceMsgHash_eq (txInfo : SetNftPriceTxInfo) (hFunc : Hash) :
    ComputeSetNftPriceMsgHash txInfo hFunc = hFunc.digest (setNftPriceMsgBytes txInfo) := by
  have h : ComputeSetNftPriceMsgHash txInfo hFunc
      = hFunc.digest ([] ++ setNftPriceMsgBytes txInfo) := rfl
  rw [h, List.nil_append]

/-- The message bytes are eight 32-byte chunks, in the order of the fields. -/
theorem setNftPriceMsgBytes_eq (txInfo : SetNftPriceTxInfo) :
    setNftPriceMsgBytes txInfo =
      fillBytes 32 (txInfo.AccountIndex % 2 ^ 64) ++ fillBytes 32 (txInfo.NftIndex % 2 ^ 64) ++
      fillBytes 32 (txInfo.AssetId % 2 ^ 64) ++ fillBytes 32 (txInfo.AssetAmount % 2 ^ 64) ++
      fillBytes 32 (txInfo.GasAccountIndex % 2 ^ 64) ++
      fillBytes 32 (txInfo.GasFeeAssetId % 2 ^ 64) ++
      fillBytes 32 (txInfo.GasFeeAssetAmount % 2 ^ 64) ++
      fillBytes 32 (txInfo.Nonce % 2 ^ 64) := by
  have h : setNftPriceMsgBytes txInfo =
      [] ++ fillBytes 32 (txInfo.AccountIndex % 2 ^ 64) ++
      fillBytes 32 (txInfo.NftIndex % 2 ^ 64) ++
      fillBytes 32 (txInfo.AssetId % 2 ^ 64) ++ fillBytes 32 (txInfo.AssetAmount % 2 ^ 64) ++
      fillBytes 32 (txInfo.GasAccountIndex % 2 ^ 64) ++
      fillBytes 32 (txInfo.GasFeeAssetId % 2 ^ 64) ++
      fillBytes 32 (txInfo.GasFeeAssetAmount % 2 ^ 64) ++
      fillBytes 32 (txInfo.Nonce % 2 ^ 64) := rfl
  rw [h, List.nil_append]

set_option maxRecDepth 20000 in
/-- C12 counterexample: the sample text with account_index = 2^32 + 1 is not rejected;
the call returns a transaction whose AccountIndex is 1, the very result of the text with
account_index = 1. -/
theorem ConstructSetNftPriceTxInfo_wide_index_counterexample :
    demoSegmentWideIndex.AccountIndex > 2 ^ 32 - 1 ∧
    demoSegmentWideIndex ≠ demoSegment ∧
    ConstructSetNftPriceTxInfo demoJsonEnv 9 demoSegmentWideIndexStr =
      .returned
        (some { AccountIndex := 1, NftIndex := 2, AssetId := 3, AssetAmount := 100,
                GasAccountIndex := 0, GasFeeAssetId := 0, GasFeeAssetAmount := 1, Nonce := 5,
                Sig := [76] },
         none) ∧
    ConstructSetNftPriceTxInfo demoJsonEnv 9 demoSegmentWideIndexStr
      = ConstructSetNftPriceTxInfo demoJsonEnv 9 demoSegmentStr := by
  decide

/-- C12 (amended): ConstructSetNftPriceTxInfo makes no range check.  An index or
asset-id field above 2^32 - 1 is reduced modulo 2^32, so two decoded segments whose
index and asset-id fields agree modulo 2^32 and whose amounts and nonce are equal give
the same result (transaction, or error of the signer); and on a decoded segment an
error is returned only when the signer fails. -/
theorem ConstructSetNftPriceTxInfo_index_wraps {SK : Type} (env : TxEnv SK) (sk : SK)
    (str1 str2 : String) (seg1 seg2 : SetNftPriceSegmentFormat)
    (hdec1 : env.Unmarshal str1 = .ok (some seg1))
    (hdec2 : env.Unmarshal str2 = .ok (some seg2))
    (hAccount : seg1.AccountIndex ≡ seg2.AccountIndex [ZMOD 2 ^ 32])
    (hNft : seg1.NftIndex ≡ seg2.NftIndex [ZMOD 2 ^ 32])
    (hAsset : seg1.AssetId ≡ seg2.AssetId [ZMOD 2 ^ 32])
    (hAmount : seg1.AssetAmount = seg2.AssetAmount)
    (hGasAccount : seg1.GasAccountIndex ≡ seg2.GasAccountIndex [ZMOD 2 ^ 32])
    (hGasAsset : seg1.GasFeeAssetId ≡ seg2.GasFeeAssetId [ZMOD 2 ^ 32])
    (hGasAmount : seg1.GasFeeAssetAmount = seg2.GasFeeAssetAmount)
    (hNonce : seg1.Nonce = seg2.Nonce) :
    ConstructSetNftPriceTxInfo env sk str1 = ConstructSetNftPriceTxInfo env sk str2 ∧
    (∀ err : Error, ConstructSetNftPriceTxInfo env sk str1 = .returned (none, some err) →
      env.Sign sk
          (ComputeSetNftPriceMsgHash (txInfoOfSegment seg1)
            { digest := env.digest, data := [] })
          { digest := env.digest, data := [] } = .error err) := by
  have htx : txInfoOfSegment seg1 = txInfoOfSegment seg2 := by
    have e1 : uint32 seg1.AccountIndex = uint32 seg2.AccountIndex := by
      unfold uint32; rw [hAccount.eq]
    have e2 : uint32 seg1.NftIndex = uint32 seg2.NftIndex := by
      unfold uint32; rw [hNft.eq]
    have e3 : uint32 seg1.AssetId = uint32 seg2.AssetId := by
      unfold uint32; rw [hAsset.eq]
    have e5 : uint32 seg1.GasAccountIndex = uint32 seg2.GasAccountIndex := by
      unfold uint32; rw [hGasAccount.eq]
    have e6 : uint32 seg1.GasFeeAssetId = uint32 seg2.GasFeeAssetId := by
      unfold uint32; rw [hGasAsset.eq]
    simp only [txInfoOfSegment, e1, e2, e3, e5, e6, hAmount, hGasAmount, hNonce]
  refine ⟨?_, ?_⟩
  · simp only [ConstructSetNftPriceTxInfo, hdec1, hdec2, htx]
  · intro err
    simp only [ConstructSetNftPriceTxInfo, hdec1, Hash.Reset]
    cases hs : env.Sign sk
        (ComputeSetNftPriceMsgHash (txInfoOfSegment seg1) { digest := env.digest, data := [] })
        { digest := env.digest, data := [] } with
    | error e => simp
    | ok sig => simp

set_option maxRecDepth 20000 in
/-- C12 (amended) at the sample texts with account_index = 2^32 + 1 and 1. -/
theorem ConstructSetNftPriceTxInfo_index_wraps_witness :
    ConstructSetNftPriceTxInfo demoJsonEnv 9 demoSegmentWideIndexStr
      = ConstructSetNftPriceTxInfo demoJsonEnv 9 demoSegmentStr :=
  (ConstructSetNftPriceTxInfo_index_wraps demoJsonEnv 9 demoSegmentWideIndexStr
    demoSegmentStr demoSegmentWideIndex demoSegment (by rfl) (by rfl) (by decide) (by decide)
    (by decide) (by decide) (by decide) (by decide) (by decide) (by decide)).1

/-- C13: ComputeSetNftPriceMsgHash depends on the eight numeric fields only: two
transactions that agree on them get the same hash from hashers with the same digest
function, whatever their Sig fields and whatever the hashers held before the call. -/
theorem ComputeSetNftPriceMsgHash_pure (tx1 tx2 : SetNftPriceTxInfo) (hFunc1 hFunc2 : Hash)
    (hdigest : hFunc1.digest = hFunc2.digest)
    (hAccount : tx1.AccountIndex = tx2.AccountIndex)
    (hNft : tx1.NftIndex = tx2.NftIndex)
    (hAsset : tx1.AssetId = tx2.AssetId)
    (hAmount : tx1.AssetAmount = tx2.AssetAmount)
    (hGasAccount : tx1.GasAccountIndex = tx2.GasAccountIndex)
    (hGasAsset : tx1.GasFeeAssetId = tx2.GasFeeAssetId)
    (hGasAmount : tx1.GasFeeAssetAmount = tx2.GasFeeAssetAmount)
    (hNonce : tx1.Nonce = tx2.Nonce) :
    ComputeSetNftPriceMsgHash tx1 hFunc1 = ComputeSetNftPriceMsgHash tx2 hFunc2 := by
  rw [ComputeSetNftPriceMsgHash_eq, ComputeSetNftPriceMsgHash_eq, setNftPriceMsgBytes_eq,
    setNftPriceMsgBytes_eq, hdigest, hAccount, hNft, hAsset, hAmount, hGasAccount, hGasAsset,
    hGasAmount, hNonce]

/-- C13 at the transaction of spec 8, once unsigned with a fresh hasher and once signed
with a hasher that already holds three bytes. -/
theorem ComputeSetNftPriceMsgHash_pure_witness :
    ComputeSetNftPriceMsgHash (txInfoOfSegment demoSegment)
        { digest := demoTxEnv.digest, data := [] }
      = ComputeSetNftPriceMsgHash { txInfoOfSegment demoSegment with Sig := [76] }
        { digest := demoTxEnv.digest, data := [7, 7, 7] } :=
  ComputeSetNftPriceMsgHash_pure (txInfoOfSegment demoSegment)
    { txInfoOfSegment demoSegment with Sig := [76] }
    { digest := demoTxEnv.digest, data := [] }
    { digest := demoTxEnv.digest, data := [7, 7, 7] } rfl rfl rfl rfl rfl rfl rfl rfl rfl

/-- The message bytes do not read the signature. -/
theorem setNftPriceMsgBytes_Sig (txInfo : SetNftPriceTxInfo) (sigBytes : List Nat) :
    setNftPriceMsgBytes { txInfo with Sig := sigBytes } = setNftPriceMsgBytes txInfo := by
  rw [setNftPriceMsgBytes_eq, setNftPriceMsgBytes_eq]

/-- What a call that returned a transaction went through. -/
theorem ConstructSetNftPriceTxInfo_returned_some {SK : Type} (env : TxEnv SK) (sk : SK)
    (segmentStr : String) (txInfo : SetNftPriceTxInfo) (err : Option Error)
    (h : ConstructSetNftPriceTxInfo env sk segmentStr = .returned (some txInfo, err)) :
    ∃ seg : SetNftPriceSegmentFormat, env.Unmarshal segmentStr = .ok (some seg) ∧
      env.Sign sk
          (ComputeSetNftPriceMsgHash (txInfoOfSegment seg) { digest := env.digest, data := [] })
          { digest := env.digest, data := [] } = .ok txInfo.Sig ∧
      txInfo = { txInfoOfSegment seg with Sig := txInfo.Sig } ∧ err = none := by
  unfold ConstructSetNftPriceTxInfo at h
  cases hdec : env.Unmarshal segmentStr with
  | error e => rw [hdec] at h; simp at h
  | ok p =>
    cases p with
    | none => rw [hdec] at h; simp at h
    | some seg =>
      rw [hdec] at h
      simp only [Hash.Reset] at h
      cases hs : env.Sign sk
          (ComputeSetNftPriceMsgHash (txInfoOfSegment seg) { digest := env.digest, data := [] })
          { digest := env.digest, data := [] } with
      | error e => rw [hs] at h; simp at h
      | ok sig =>
        rw [hs] at h
        simp only [Outcome.returned.injEq, Prod.mk.injEq, Option.some.injEq] at h
        obtain ⟨h1, h2⟩ := h
        subst h1
        exact ⟨seg, rfl, hs, rfl, h2.symm⟩

/-- C15: when ConstructSetNftPriceTxInfo returns a transaction, its Sig is what the
signer produced with sk over ComputeSetNftPriceMsgHash of that same transaction, so
under any verification function that accepts what the signer produces the Sig verifies
over the transaction's message hash for the public key of sk; and whenever the call
returns an error, the returned transaction is nil. -/
theorem ConstructSetNftPriceTxInfo_signature {SK : Type} (env : TxEnv SK) (sk : SK)
    (segmentStr : String) :
    (∀ txInfo : SetNftPriceTxInfo,
      ConstructSetNftPriceTxInfo env sk segmentStr = .returned (some txInfo, none) →
      ∀ hFunc : Hash, hFunc.digest = env.digest →
        env.Sign sk (ComputeSetNftPriceMsgHash txInfo hFunc)
          { digest := env.digest, data := [] } = .ok txInfo.Sig) ∧
    (∀ (PK : Type) (pub : SK → PK) (verify : PK → List Nat → List Nat → Bool),
      (∀ (k : SK) (msg : List Nat) (h : Hash) (sigBytes : List Nat),
        env.Sign k msg h = .ok sigBytes → verify (pub k) msg sigBytes = true) →
      ∀ txInfo : SetNftPriceTxInfo,
        ConstructSetNftPriceTxInfo env sk segmentStr = .returned (some txInfo, none) →
        ∀ hFunc : Hash, hFunc.digest = env.digest →
          verify (pub sk) (ComputeSetNftPriceMsgHash txInfo hFunc) txInfo.Sig = true) ∧
    (∀ (txInfo : Option SetNftPriceTxInfo) (err : Error),
      ConstructSetNftPriceTxInfo env sk segmentStr = .returned (txInfo, some err) →
        txInfo = none) := by
  have key : ∀ txInfo : SetNftPriceTxInfo,
      ConstructSetNftPriceTxInfo env sk segmentStr = .returned (some txInfo, none) →
      ∀ hFunc : Hash, hFunc.digest = env.digest →
        env.Sign sk (ComputeSetNftPriceMsgHash txInfo hFunc)
          { digest := env.digest, data := [] } = .ok txInfo.Sig := by
    intro txInfo h hFunc hd
    obtain ⟨seg, _, hs, htx, _⟩ :=
      ConstructSetNftPriceTxInfo_returned_some env sk segmentStr txInfo none h
    have e : ComputeSetNftPriceMsgHash txInfo hFunc
        = ComputeSetNftPriceMsgHash (txInfoOfSegment seg)
            { digest := env.digest, data := [] } := by
      rw [ComputeSetNftPriceMsgHash_eq, ComputeSetNftPriceMsgHash_eq, hd, htx,
        setNftPriceMsgBytes_Sig]
    rw [e]
    exact hs
  refine ⟨key, ?_, ?_⟩
  · intro PK pub verify hcorrect txInfo h hFunc hd
    exact hcorrect sk _ _ _ (key txInfo h hFunc hd)
  · intro txInfo err h
    cases txInfo with
    | none => rfl
    | some t =>
      obtain ⟨_, _, _, _, he⟩ :=
        ConstructSetNftPriceTxInfo_returned_some env sk segmentStr t (some err) h
      simp at he

set_option maxRecDepth 20000 in
/-- C15 at the sample text of spec 8 signed with key 9: the signature byte 76 is what
the demo signer returns on the message hash of the returned transaction. -/
theorem ConstructSetNftPriceTxInfo_signature_witness :
    demoJsonEnv.Sign 9
        (ComputeSetNftPriceMsgHash
          { AccountIndex := 1, NftIndex := 2, AssetId := 3, AssetAmount := 100,
            GasAccountIndex := 0, GasFeeAssetId := 0, GasFeeAssetAmount := 1, Nonce := 5,
            Sig := [76] }
          { digest := demoJsonEnv.digest, data := [1, 2, 3] })
        { digest := demoJsonEnv.digest, data := [] }
      = .ok [76] :=
  (ConstructSetNftPriceTxInfo_signature demoJsonEnv 9 demoSegmentStr).1
    { AccountIndex := 1, NftIndex := 2, AssetId := 3, AssetAmount := 100,
      GasAccountIndex := 0, GasFeeAssetId := 0, GasFeeAssetAmount := 1, Nonce := 5,
      Sig := [76] }
    (by decide) { digest := demoJsonEnv.digest, data := [1, 2, 3] } rfl

/-! ## Theorems: the transfer-nft segment -/

set_option maxRecDepth 20000 in
/-- C16 (at the failing input): on the sample record with nft_index = -1 the call
returns status Success and a segment whose NftIndex is 4294967295, the wrapped-around
image of -1; the same record with account_index = -1 instead is refused. -/
theorem FromTransferNftSegmentJSON_negative_nft_index :
    demoTransferNegativeNft.NftIndex = -1 ∧
    FromTransferNftSegmentJSON demoTransferEnv demoTransferNegativeNftStr =
      .returned
        (some { AccountIndex := 1, Pk := (6, 13), Sk := 12345, NftIndex := 4294967295,
                ReceiverAccountIndex := 3, C_fee := ((12, 17), (18, 15)), B_fee := 100,
                GasFeeAssetId := 1, GasFee := 2 },
         "success") ∧
    FromTransferNftSegmentJSON demoTransferEnv demoTransferNegativeAccountStr =
      .returned (none, "[FromTransferNftSegmentJSON] invalid params") := by
  refine ⟨by decide, by rfl, by rfl⟩

/-- The result on a text that decodes to the record `f`. -/
theorem FromTransferNftSegmentJSON_of_record {PT ENC : Type} (env : TransferEnv PT ENC)
    (segmentStr : String) (f : TransferNftSegmentFormat)
    (hdec : env.Unmarshal segmentStr = .ok (some f)) :
    FromTransferNftSegmentJSON env segmentStr =
      if f.Pk = "" ∨ f.Sk = "" ∨ f.AccountIndex < 0 ∨ f.B_fee < 0 ∨ f.GasFeeAssetId < 0 ∨
          f.GasFee < 0 then
        .returned (none, "[FromTransferNftSegmentJSON] invalid params")
      else
        match env.FromString f.Pk, env.SetString f.Sk, env.EncFromString f.C_fee with
        | .error _, _, _ => .returned (none, env.ErrParsePoint)
        | .ok _, none, _ => .returned (none, env.ErrParseBigInt)
        | .ok _, some _, .error _ => .returned (none, env.ErrParseEnc)
        | .ok Pk, some Sk, .ok C_fee =>
          .returned
            (some
              { AccountIndex := uint32 f.AccountIndex, Pk := Pk, Sk := Sk,
                NftIndex := uint32 f.NftIndex,
                ReceiverAccountIndex := uint32 f.ReceiverAccountIndex, C_fee := C_fee,
                B_fee := uint64 f.B_fee, GasFeeAssetId := uint32 f.GasFeeAssetId,
                GasFee := uint64 f.GasFee },
             env.Success) := by
  unfold FromTransferNftSegmentJSON
  rw [hdec]
  by_cases h1 : f.Pk = "" ∨ f.Sk = ""
  · have h1' : (decide (f.Pk = "") || decide (f.Sk = "")) = true := by simpa using h1
    have hc : f.Pk = "" ∨ f.Sk = "" ∨ f.AccountIndex < 0 ∨ f.B_fee < 0 ∨
        f.GasFeeAssetId < 0 ∨ f.GasFee < 0 := by tauto
    simp only [h1', if_true, hc]
  · have h1' : (decide (f.Pk = "") || decide (f.Sk = "")) = false := by
      simpa using h1
    by_cases h2 : f.AccountIndex < 0 ∨ f.B_fee < 0 ∨ f.GasFeeAssetId < 0 ∨ f.GasFee < 0
    · have h2' : (decide (f.AccountIndex < 0) || decide (f.B_fee < 0) ||
          decide (f.GasFeeAssetId < 0) || decide (f.GasFee < 0)) = true := by
        simpa [or_assoc] using h2
      have hc : f.Pk = "" ∨ f.Sk = "" ∨ f.AccountIndex < 0 ∨ f.B_fee < 0 ∨
          f.GasFeeAssetId < 0 ∨ f.GasFee < 0 := by tauto
      simp only [h1', h2', if_true, hc, Bool.false_eq_true, if_false]
    · have h2' : (decide (f.AccountIndex < 0) || decide (f.B_fee < 0) ||
          decide (f.GasFeeAssetId < 0) || decide (f.GasFee < 0)) = false := by
        simp only [not_or] at h2
        obtain ⟨a, b, c, d⟩ := h2
        simp [a, b, c, d]
      have hc : ¬ (f.Pk = "" ∨ f.Sk = "" ∨ f.AccountIndex < 0 ∨ f.B_fee < 0 ∨
          f.GasFeeAssetId < 0 ∨ f.GasFee < 0) := by tauto
      simp only [h1', h2', hc, Bool.false_eq_true, if_false]
      cases env.FromString f.Pk <;> cases env.SetString f.Sk <;>
        cases env.EncFromString f.C_fee <;> rfl

/-- On every text that json.Unmarshal rejects or decodes to a record, and with error
statuses different from Success, the call returns a pair whose segment is non-nil
exactly when the status is Success; a segment is returned exactly when the text
decoded, pk and sk are non-empty, account_index, b_fee, gas_fee_asset_id and gas_fee
are non-negative and pk, sk and c_fee parsed, and it then holds the parse results and
the converted numeric fields. -/
theorem FromTransferNftSegmentJSON_returns_all_or_nothing {PT ENC : Type} (env : TransferEnv PT ENC)
    (segmentStr : String)
    (hU : env.ErrUnmarshal ≠ env.Success) (hP : env.ErrParsePoint ≠ env.Success)
    (hB : env.ErrParseBigInt ≠ env.Success) (hE : env.ErrParseEnc ≠ env.Success)
    (hI : "[FromTransferNftSegmentJSON] invalid params" ≠ env.Success)
    (hrec : env.Unmarshal segmentStr ≠ .ok none) :
    ∃ (segment : Option (TransferNftSegment PT ENC)) (status : String),
      FromTransferNftSegmentJSON env segmentStr = .returned (segment, status) ∧
      (segment ≠ none ↔ status = env.Success) ∧
      (∀ seg : TransferNftSegment PT ENC, segment = some seg ↔
        ∃ (f : TransferNftSegmentFormat) (Pk : PT) (Sk : Int) (C_fee : ENC),
          env.Unmarshal segmentStr = .ok (some f) ∧ f.Pk ≠ "" ∧ f.Sk ≠ "" ∧
          0 ≤ f.AccountIndex ∧ 0 ≤ f.B_fee ∧ 0 ≤ f.GasFeeAssetId ∧ 0 ≤ f.GasFee ∧
          env.FromString f.Pk = .ok Pk ∧ env.SetString f.Sk = some Sk ∧
          env.EncFromString f.C_fee = .ok C_fee ∧
          seg = { AccountIndex := uint32 f.AccountIndex, Pk := Pk, Sk := Sk,
                  NftIndex := uint32 f.NftIndex,
                  ReceiverAccountIndex := uint32 f.ReceiverAccountIndex, C_fee := C_fee,
                  B_fee := uint64 f.B_fee, GasFeeAssetId := uint32 f.GasFeeAssetId,
                  GasFee := uint64 f.GasFee }) := by
  cases hdec : env.Unmarshal segmentStr with
  | error e =>
    refine ⟨none, env.ErrUnmarshal, ?_, ?_, ?_⟩
    · simp [FromTransferNftSegmentJSON, hdec]
    · simp [hU]
    · intro seg
      simp
  | ok p =>
    cases p with
    | none => exact absurd hdec hrec
    | some f =>
      rw [FromTransferNftSegmentJSON_of_record env segmentStr f hdec]
      have inj : ∀ g : TransferNftSegmentFormat,
          (Except.ok (some f) : Except Error (Option TransferNftSegmentFormat))
            = Except.ok (some g) → g = f := by
        intro g hg
        injection hg with hg
        injection hg with hg
        exact hg.symm
      by_cases hc : f.Pk = "" ∨ f.Sk = "" ∨ f.AccountIndex < 0 ∨ f.B_fee < 0 ∨
          f.GasFeeAssetId < 0 ∨ f.GasFee < 0
      · refine ⟨none, "[FromTransferNftSegmentJSON] invalid params", by rw [if_pos hc],
          by simp [hI], ?_⟩
        intro seg
        constructor
        · intro h; cases h
        · rintro ⟨g, Pk, Sk, C, hg, a1, a2, a3, a4, a5, a6, _⟩
          have := inj g hg
          subst this
          rcases hc with h | h | h | h | h | h
          · exact absurd h a1
          · exact absurd h a2
          · omega
          · omega
          · omega
          · omega
      · rw [if_neg hc]
        simp only [not_or, not_lt] at hc
        obtain ⟨c1, c2, c3, c4, c5, c6⟩ := hc
        cases hPk : env.FromString f.Pk with
        | error e =>
          refine ⟨none, env.ErrParsePoint, rfl, by simp [hP], ?_⟩
          intro seg
          constructor
          · intro h; cases h
          · rintro ⟨g, Pk, Sk, C, hg, _, _, _, _, _, _, b1, _⟩
            have := inj g hg
            subst this
            rw [hPk] at b1
            cases b1
        | ok Pk =>
          cases hSk : env.SetString f.Sk with
          | none =>
            refine ⟨none, env.ErrParseBigInt, rfl, by simp [hB], ?_⟩
            intro seg
            constructor
            · intro h; cases h
            · rintro ⟨g, Pk2, Sk, C, hg, _, _, _, _, _, _, _, b2, _⟩
              have := inj g hg
              subst this
              rw [hSk] at b2
              cases b2
          | some Sk =>
            cases hC : env.EncFromString f.C_fee with
            | error e =>
              refine ⟨none, env.ErrParseEnc, rfl, by simp [hE], ?_⟩
              intro seg
              constructor
              · intro h; cases h
              · rintro ⟨g, Pk2, Sk2, C, hg, _, _, _, _, _, _, _, _, b3, _⟩
                have := inj g hg
                subst this
                rw [hC] at b3
                cases b3
            | ok C =>
              refine ⟨some _, env.Success, rfl, by simp, ?_⟩
              intro seg
              constructor
              · intro h
                injection h with h
                exact ⟨f, Pk, Sk, C, rfl, c1, c2, c3, c4, c5, c6, hPk, hSk, hC, h.symm⟩
              · rintro ⟨g, Pk2, Sk2, C2, hg, _, _, _, _, _, _, b1, b2, b3, hseg⟩
                have := inj g hg
                subst this
                rw [hPk] at b1
                rw [hSk] at b2
                rw [hC] at b3
                injection b1 with b1
                injection b2 with b2
                injection b3 with b3
                subst b1 b2 b3
                rw [hseg]

/-- C17 (at the failing input, and on every other input): with error statuses different
from Success, a text for which json.Unmarshal succeeds and leaves the decoded pointer
nil, as the JSON text null does, makes FromTransferNftSegmentJSON abort on reading
`segmentFormat.Pk`: no segment and no status is returned.  On every other text the call
returns, the segment is non-nil exactly when the status is Success, and that happens
exactly when the text decoded, pk and sk are non-empty, account_index, b_fee,
gas_fee_asset_id and gas_fee are non-negative and pk, sk and c_fee parsed, the segment
then holding the parse results and the converted numeric fields. -/
theorem FromTransferNftSegmentJSON_abort_or_all_or_nothing {PT ENC : Type}
    (env : TransferEnv PT ENC) (segmentStr : String)
    (hU : env.ErrUnmarshal ≠ env.Success) (hP : env.ErrParsePoint ≠ env.Success)
    (hB : env.ErrParseBigInt ≠ env.Success) (hE : env.ErrParseEnc ≠ env.Success)
    (hI : "[FromTransferNftSegmentJSON] invalid params" ≠ env.Success) :
    (env.Unmarshal segmentStr = .ok none →
      FromTransferNftSegmentJSON env segmentStr = .nilDereference ∧
      ¬ ∃ (segment : Option (TransferNftSegment PT ENC)) (status : String),
        FromTransferNftSegmentJSON env segmentStr = .returned (segment, status)) ∧
    (env.Unmarshal segmentStr ≠ .ok none →
      ∃ (segment : Option (TransferNftSegment PT ENC)) (status : String),
        FromTransferNftSegmentJSON env segmentStr = .returned (segment, status) ∧
        (segment ≠ none ↔ status = env.Success) ∧
        (∀ seg : TransferNftSegment PT ENC, segment = some seg ↔
          ∃ (f : TransferNftSegmentFormat) (Pk : PT) (Sk : Int) (C_fee : ENC),
            env.Unmarshal segmentStr = .ok (some f) ∧ f.Pk ≠ "" ∧ f.Sk ≠ "" ∧
            0 ≤ f.AccountIndex ∧ 0 ≤ f.B_fee ∧ 0 ≤ f.GasFeeAssetId ∧ 0 ≤ f.GasFee ∧
            env.FromString f.Pk = .ok Pk ∧ env.SetString f.Sk = some Sk ∧
            env.EncFromString f.C_fee = .ok C_fee ∧
            seg = { AccountIndex := uint32 f.AccountIndex, Pk := Pk, Sk := Sk,
                    NftIndex := uint32 f.NftIndex,
                    ReceiverAccountIndex := uint32 f.ReceiverAccountIndex, C_fee := C_fee,
                    B_fee := uint64 f.B_fee, GasFeeAssetId := uint32 f.GasFeeAssetId,
                    GasFee := uint64 f.GasFee })) := by
  refine ⟨fun hnil => ?_, fun hrec => ?_⟩
  · have habort : FromTransferNftSegmentJSON env segmentStr = .nilDereference := by
      simp [FromTransferNftSegmentJSON, hnil]
    refine ⟨habort, ?_⟩
    rintro ⟨segment, status, h⟩
    rw [habort] at h
    cases h
  · exact FromTransferNftSegmentJSON_returns_all_or_nothing env segmentStr hU hP hB hE hI hrec

set_option maxRecDepth 20000 in
/-- C17 at the JSON text null, on which the demo call aborts and returns nothing, and at
the well-formed sample record, which yields Success and a segment. -/
theorem FromTransferNftSegmentJSON_abort_or_all_or_nothing_witness :
    (FromTransferNftSegmentJSON demoTransferEnv "null" = .nilDereference ∧
      ¬ ∃ (segment : Option (TransferNftSegment (Nat × Nat) ((Nat × Nat) × (Nat × Nat))))
          (status : String),
        FromTransferNftSegmentJSON demoTransferEnv "null" = .returned (segment, status)) ∧
    (∃ (segment : Option (TransferNftSegment (Nat × Nat) ((Nat × Nat) × (Nat × Nat))))
        (status : String),
      FromTransferNftSegmentJSON demoTransferEnv demoTransferStr
        = .returned (segment, status) ∧
      (segment ≠ none ↔ status = "success")) := by
  obtain ⟨s1, t1, h1, h2, _⟩ :=
    (FromTransferNftSegmentJSON_abort_or_all_or_nothing demoTransferEnv demoTransferStr
      (by decide) (by decide) (by decide) (by decide) (by decide)).2 (by intro h; cases h)
  exact ⟨(FromTransferNftSegmentJSON_abort_or_all_or_nothing demoTransferEnv "null"
      (by decide) (by decide) (by decide) (by decide) (by decide)).1 (by rfl),
    ⟨s1, t1, h1, h2⟩⟩

/-- C20 (at the failing inputs): whenever json.Unmarshal succeeds and leaves the decoded
pointer nil, as it does for the JSON text null, both ConstructSetNftPriceTxInfo and
FromTransferNftSegmentJSON read a field through the nil pointer and abort; neither
returns a result or an error. -/
theorem decoded_nil_is_dereferenced :
    (∀ (SK : Type) (env : TxEnv SK) (sk : SK) (segmentStr : String),
      env.Unmarshal segmentStr = .ok none →
        ConstructSetNftPriceTxInfo env sk segmentStr = .nilDereference) ∧
    (∀ (PT ENC : Type) (env : TransferEnv PT ENC) (segmentStr : String),
      env.Unmarshal segmentStr = .ok none →
        FromTransferNftSegmentJSON env segmentStr = .nilDereference) := by
  refine ⟨?_, ?_⟩
  · intro SK env sk segmentStr h
    simp [ConstructSetNftPriceTxInfo, h]
  · intro PT ENC env segmentStr h
    simp [FromTransferNftSegmentJSON, h]

/-- C20 at the JSON text null with the two demo decoders. -/
theorem decoded_nil_is_dereferenced_witness :
    ConstructSetNftPriceTxInfo demoJsonEnv 9 "null" = .nilDereference ∧
    FromTransferNftSegmentJSON demoTransferEnv "null" = .nilDereference :=
  ⟨decoded_nil_is_dereferenced.1 Nat demoJsonEnv 9 "null" (by rfl),
   decoded_nil_is_dereferenced.2 (Nat × Nat) ((Nat × Nat) × (Nat × Nat)) demoTransferEnv "null"
     (by rfl)⟩

/-! ## Theorems: the padding witness and the free T_fee -/

/-- C18: the witness returned by SetEmptyUnlockProofWitness has IsEnabled set by
SetBoolWitness(false), every scalar field assigned ZeroInt, every point field set from
BasePoint and C_fee set from ZeroElgamalEnc.  When ZeroInt is 0, the false flag is the
value 0 and the setters assign the coordinates of the base point and of the identity
points, the constraint system reads from it the padding values, and every assignment it
reads from this witness satisfies all constraints of VerifyUnlockProof. -/
theorem SetEmptyUnlockProofWitness_inert {NP NE P : Type} [AddCommGroup P] [DecidableEq P]
    (env : WitnessEnv NP NE) (BasePoint : NP) (ZeroInt : Nat) (ZeroElgamalEnc : NE)
    (FixedCurveParam : Nat) (params : EdCurve P) (hFunc : MiMC) (h : P)
    (hZero : ZeroInt = 0)
    (hBool : env.SetBoolWitness false = Variable.zero.Assign 0)
    (hBase : ((env.SetPointWitness BasePoint).1).holds params params.Base = true)
    (hCL : ((env.SetElGamalEncWitness ZeroElgamalEnc).1.CL).holds params 0 = true)
    (hCR : ((env.SetElGamalEncWitness ZeroElgamalEnc).1.CR).holds params 0 = true) :
    SetEmptyUnlockProofWitness env BasePoint ZeroInt ZeroElgamalEnc =
      { A_pk := (env.SetPointWitness BasePoint).1
        Z_sk := Variable.zero.Assign ZeroInt
        Z_skInv := Variable.zero.Assign ZeroInt
        Pk := (env.SetPointWitness BasePoint).1
        ChainId := Variable.zero.Assign ZeroInt
        AssetId := Variable.zero.Assign ZeroInt
        Balance := Variable.zero.Assign ZeroInt
        DeltaAmount := Variable.zero.Assign ZeroInt
        A_T_feeC_feeRPrimeInv := (env.SetPointWitness BasePoint).1
        Z_bar_r_fee := Variable.zero.Assign ZeroInt
        C_fee := (env.SetElGamalEncWitness ZeroElgamalEnc).1
        T_fee := (env.SetPointWitness BasePoint).1
        GasFeeAssetId := Variable.zero.Assign ZeroInt
        GasFee := Variable.zero.Assign ZeroInt
        IsEnabled := env.SetBoolWitness false } ∧
    assigns params (SetEmptyUnlockProofWitness env BasePoint ZeroInt ZeroElgamalEnc)
      (emptyUnlockValues params) = true ∧
    (∀ values : UnlockProofConstraints P Nat,
      assigns params (SetEmptyUnlockProofWitness env BasePoint ZeroInt ZeroElgamalEnc) values
        = true →
      values.IsEnabled = 0 ∧
      VerifyUnlockProof FixedCurveParam values params hFunc h = true) := by
  refine ⟨rfl, ?_, ?_⟩
  · subst hZero
    simp [assigns, SetEmptyUnlockProofWitness, emptyUnlockValues, hBool, hBase, hCL, hCR,
      Variable.holds, Variable.Assign]
  · intro values hv
    have hflag : values.IsEnabled = 0 := by
      simp only [assigns, Bool.and_eq_true] at hv
      have h16 := hv.2
      simp only [SetEmptyUnlockProofWitness, hBool, Variable.holds, Variable.Assign,
        decide_eq_true_eq, Option.some.injEq] at h16
      exact h16.symm
    refine ⟨hflag, ?_⟩
    rw [VerifyUnlockProof_eq_true_iff]
    exact ⟨Or.inr hflag, Or.inr hflag⟩

set_option maxRecDepth 8000 in
/-- C18 with the demo setters, the base point (2, 7) of the demo curve and the identity
(0, 3): the padding values are read from the witness and satisfy the constraints. -/
theorem SetEmptyUnlockProofWitness_inert_witness :
    assigns demoCurve
      (SetEmptyUnlockProofWitness demoWitnessEnv (some (2, 7)) 0 (some ((0, 3), (0, 3))))
      (emptyUnlockValues demoCurve) = true ∧
    VerifyUnlockProof 0 (emptyUnlockValues demoCurve) demoCurve (NewMiMC demoDigest) 10
      = true :=
  have hw := SetEmptyUnlockProofWitness_inert demoWitnessEnv (some (2, 7)) 0
    (some ((0, 3), (0, 3))) 0 demoCurve (NewMiMC demoDigest) (10 : ZMod 26) rfl rfl
    (by decide) (by decide) (by decide)
  ⟨hw.2.1, (hw.2.2 (emptyUnlockValues demoCurve) hw.2.1).2⟩

/-- C19: T_fee is not bound by the challenge.  Let order annihilate every point and let
d invert the challenge c of the other fields modulo order.  Then with
T_fee = (C_fee.CR - GasFee*H) + d*(Z_bar_r_fee*G + Z_skInv*(-C_fee.CL) -
A_T_feeC_feeRPrimeInv) the challenge is still c and the fee-debit equality of
VerifyUnlockProof holds, whatever the other fields are. -/
theorem VerifyUnlockProof_free_T_fee {P : Type} [AddCommGroup P] [DecidableEq P]
    (FixedCurveParam : Nat) (proof : UnlockProofConstraints P Nat) (params : EdCurve P)
    (hFunc : MiMC) (h : P) (order d : Nat)
    (hord : ∀ p : P, order • p = 0)
    (hinv : unlockChallenge FixedCurveParam proof params hFunc * d ≡ 1 [MOD order]) :
    unlockChallenge FixedCurveParam
        { proof with
          T_fee := (proof.C_fee.CR - proof.GasFee • h) +
            d • (proof.Z_bar_r_fee • params.Base + proof.Z_skInv • (-proof.C_fee.CL)
              - proof.A_T_feeC_feeRPrimeInv) }
        params hFunc
      = unlockChallenge FixedCurveParam proof params hFunc ∧
    (unlockEq2
        { proof with
          T_fee := (proof.C_fee.CR - proof.GasFee • h) +
            d • (proof.Z_bar_r_fee • params.Base + proof.Z_skInv • (-proof.C_fee.CL)
              - proof.A_T_feeC_feeRPrimeInv) }
        params h (unlockChallenge FixedCurveParam proof params hFunc)).1
      = (unlockEq2
        { proof with
          T_fee := (proof.C_fee.CR - proof.GasFee • h) +
            d • (proof.Z_bar_r_fee • params.Base + proof.Z_skInv • (-proof.C_fee.CL)
              - proof.A_T_feeC_feeRPrimeInv) }
        params h (unlockChallenge FixedCurveParam proof params hFunc)).2 := by
  refine ⟨?_, ?_⟩
  · rw [unlockChallenge_eq, unlockChallenge_eq]
  · generalize unlockChallenge FixedCurveParam proof params hFunc = c at hinv ⊢
    simp only [unlockEq2, ScalarBaseMul, ScalarMul, AddPoint, Neg]
    have hone : ∀ p : P, (c * d) • p = p := by
      intro p
      rw [nsmul_congr_of_modEq (hord p) hinv, one_nsmul]
    have hT : (proof.C_fee.CR - proof.GasFee • h) +
        d • (proof.Z_bar_r_fee • params.Base + proof.Z_skInv • (-proof.C_fee.CL)
          - proof.A_T_feeC_feeRPrimeInv) + -(proof.C_fee.CR + proof.GasFee • (-h))
        = d • (proof.Z_bar_r_fee • params.Base + proof.Z_skInv • (-proof.C_fee.CL)
          - proof.A_T_feeC_feeRPrimeInv) := by
      have hg : proof.GasFee • (-h) = -(proof.GasFee • h) := smul_neg _ _
      rw [hg]; abel
    rw [hT, ← mul_nsmul', hone]
    abel

set_option maxRecDepth 8000 in
/-- C19 at the fields of the demo proof with the responses replaced by 1 and 2: the
challenge is 5, its inverse modulo 26 is 21, and the T_fee of the formula satisfies the
fee-debit equality. -/
theorem VerifyUnlockProof_free_T_fee_witness :
    (unlockEq2
        { demoProof with
          Z_bar_r_fee := 1, Z_skInv := 2,
          T_fee := ((18 : ZMod 26) - 2 • (10 : ZMod 26)) +
            21 • (1 • (2 : ZMod 26) + 2 • (-(12 : ZMod 26)) - 0) }
        demoCurve 10 5).1
      = (unlockEq2
        { demoProof with
          Z_bar_r_fee := 1, Z_skInv := 2,
          T_fee := ((18 : ZMod 26) - 2 • (10 : ZMod 26)) +
            21 • (1 • (2 : ZMod 26) + 2 • (-(12 : ZMod 26)) - 0) }
        demoCurve 10 5).2 :=
  (VerifyUnlockProof_free_T_fee 0 { demoProof with Z_bar_r_fee := 1, Z_skInv := 2 } demoCurve
    (NewMiMC demoDigest) 10 26 21 (by decide) (by decide)).2

end Zecrey
